import Mathlib

/-!
# CXI provider: direct-verbs queries, work submission and queue-pair state

A shallow embedding of `providers/cxi` (`cxidv.h`, `cxi.h`, `cxi-abi.h`,
`verbs.c`).  Caller memory is a byte map, the kernel is an explicit function
from a request to its reply, and every entry point returns, next to its C
return value, the list of effects (transport requests, allocations) it
performed.
-/

namespace Cxi

/-! ## C object layout (`offsetof`, `sizeof`) -/

/-- Scalar and array types used by the structures of `cxidv.h` and `cxi-abi.h`. -/
inductive ctype where
  | u8
  | u16
  | u32
  | u64
  | aligned_u64
  | arr (elem : ctype) (n : Nat)
  deriving DecidableEq, Repr

/-- Value of `sizeof` for a type. -/
def ctype.size : ctype → Nat
  | .u8 => 1
  | .u16 => 2
  | .u32 => 4
  | .u64 => 8
  | .aligned_u64 => 8
  | .arr t n => n * t.size

/-- Alignment requirement of a type (natural alignment; an array has the
alignment of its element). -/
def ctype.align : ctype → Nat
  | .u8 => 1
  | .u16 => 2
  | .u32 => 4
  | .u64 => 8
  | .aligned_u64 => 8
  | .arr t _ => t.align

/-- One member of a structure declaration. -/
structure cfield where
  name : String
  type : ctype
  deriving DecidableEq, Repr

/-- A structure declaration is the list of its members in declaration order. -/
abbrev cstruct := List cfield

/-- Round `off` up to the next multiple of `a`. -/
def align_up (off a : Nat) : Nat := (off + a - 1) / a * a

/-- Offset of the member called `name` when the members `fs` are laid out
starting at byte `off`; members that are not found yield the end offset. -/
def offsetof_from (off : Nat) : cstruct → String → Nat
  | [], _ => off
  | f :: fs, name =>
    let o := align_up off f.type.align
    if f.name = name then o else offsetof_from (o + f.type.size) fs name

/-- Value of `offsetof(type, field)`. -/
def offsetof (s : cstruct) (name : String) : Nat := offsetof_from 0 s name

/-- Value of `sizeof(((type *)0)->field)`. -/
def field_size : cstruct → String → Nat
  | [], _ => 0
  | f :: fs, name => if f.name = name then f.type.size else field_size fs name

/-- Offset just past the last member. -/
def end_from (off : Nat) : cstruct → Nat
  | [] => off
  | f :: fs => end_from (align_up off f.type.align + f.type.size) fs

/-- Alignment of a structure: the largest member alignment. -/
def struct_align : cstruct → Nat
  | [] => 1
  | f :: fs => max f.type.align (struct_align fs)

/-- Value of `sizeof(struct ...)`. -/
def sizeof (s : cstruct) : Nat := align_up (end_from 0 s) (struct_align s)

/-- Declaration of `struct cxidv_device_attr` (cxidv.h). -/
def cxidv_device_attr : cstruct :=
  [⟨"comp_mask", .u64⟩, ⟨"max_sq_wr", .u32⟩, ⟨"max_rq_wr", .u32⟩,
   ⟨"max_sq_sge", .u16⟩, ⟨"max_rq_sge", .u16⟩, ⟨"device_caps", .u32⟩,
   ⟨"max_rdma_size", .u32⟩, ⟨"reserved", .arr .u8 4⟩]

/-- Declaration of `struct cxidv_method1_attr` (cxidv.h). -/
def cxidv_method1_attr : cstruct :=
  [⟨"comp_mask", .u64⟩, ⟨"nic_addr", .u32⟩, ⟨"pid_granule", .u32⟩,
   ⟨"pid_count", .u32⟩, ⟨"pid_bits", .u32⟩, ⟨"min_free_shift", .u32⟩,
   ⟨"reserved", .arr .u8 4⟩]

/-- Declaration of `struct cxidv_method2_attr` (cxidv.h). -/
def cxidv_method2_attr : cstruct :=
  [⟨"comp_mask", .u64⟩, ⟨"md_handle", .u32⟩, ⟨"iova", .u64⟩,
   ⟨"length", .u64⟩, ⟨"access_flags", .u32⟩, ⟨"reserved", .arr .u8 4⟩]

/-- Declaration of `struct cxidv_method3_attr` (cxidv.h). -/
def cxidv_method3_attr : cstruct :=
  [⟨"comp_mask", .u64⟩, ⟨"txq_handle", .u32⟩, ⟨"tgq_handle", .u32⟩,
   ⟨"cmdq_handle", .u32⟩, ⟨"eq_handle", .u32⟩, ⟨"state", .u32⟩,
   ⟨"reserved", .arr .u8 4⟩]

/-- The four direct-verbs attribute structures. -/
def cxidv_attr_structs : List cstruct :=
  [cxidv_device_attr, cxidv_method1_attr, cxidv_method2_attr, cxidv_method3_attr]

/-- The macro `CXIDV_FIELD_AVAIL(type, field, inlen)`. -/
def CXIDV_FIELD_AVAIL (type : cstruct) (field : String) (inlen : Nat) : Bool :=
  decide (offsetof type field + field_size type field ≤ inlen)

/-! ## Command and response structures of cxi-abi.h -/

/-- Declaration of `struct cxi_alloc_ucontext_cmd` (cxi-abi.h). -/
def cxi_alloc_ucontext_cmd.layout : cstruct :=
  [⟨"comp_mask", .u32⟩, ⟨"reserved_20", .arr .u8 4⟩]

/-- Declaration of `struct cxi_alloc_ucontext_resp` (cxi-abi.h). -/
def cxi_alloc_ucontext_resp.layout : cstruct :=
  [⟨"comp_mask", .u32⟩, ⟨"uarn", .u16⟩, ⟨"reserved_22", .arr .u8 6⟩]

/-- Declaration of `struct cxi_alloc_pd_resp` (cxi-abi.h). -/
def cxi_alloc_pd_resp.layout : cstruct :=
  [⟨"comp_mask", .u32⟩, ⟨"pdn", .u16⟩, ⟨"reserved_22", .arr .u8 6⟩]

/-- Declaration of `struct cxi_create_cq_cmd` (cxi-abi.h). -/
def cxi_create_cq_cmd.layout : cstruct :=
  [⟨"comp_mask", .u32⟩, ⟨"cq_depth", .u32⟩, ⟨"eqn", .u16⟩, ⟨"reserved_26", .arr .u8 6⟩]

/-- Declaration of `struct cxi_create_cq_resp` (cxi-abi.h). -/
def cxi_create_cq_resp.layout : cstruct :=
  [⟨"comp_mask", .u32⟩, ⟨"cq_idx", .u16⟩, ⟨"actual_depth", .u16⟩, ⟨"db_off", .u32⟩,
   ⟨"reserved_30", .arr .u8 4⟩]

/-- Declaration of `struct cxi_create_qp_cmd` (cxi-abi.h). -/
def cxi_create_qp_cmd.layout : cstruct :=
  [⟨"comp_mask", .u32⟩, ⟨"sq_depth", .u32⟩, ⟨"rq_depth", .u32⟩, ⟨"send_cq_idx", .u16⟩,
   ⟨"recv_cq_idx", .u16⟩, ⟨"reserved_34", .arr .u8 4⟩]

/-- Declaration of `struct cxi_create_qp_resp` (cxi-abi.h). -/
def cxi_create_qp_resp.layout : cstruct :=
  [⟨"comp_mask", .u32⟩, ⟨"qp_handle", .u32⟩, ⟨"qp_num", .u32⟩, ⟨"sq_db_offset", .u32⟩,
   ⟨"rq_db_offset", .u32⟩, ⟨"reserved_38", .arr .u8 4⟩]

/-- Declaration of `struct cxi_reg_mr_cmd` (cxi-abi.h). -/
def cxi_reg_mr_cmd.layout : cstruct :=
  [⟨"comp_mask", .u32⟩, ⟨"start", .aligned_u64⟩, ⟨"length", .aligned_u64⟩,
   ⟨"virt_addr", .aligned_u64⟩, ⟨"access_flags", .u32⟩, ⟨"reserved_44", .arr .u8 4⟩]

/-- Declaration of `struct cxi_reg_mr_resp` (cxi-abi.h). -/
def cxi_reg_mr_resp.layout : cstruct :=
  [⟨"comp_mask", .u32⟩, ⟨"l_key", .u32⟩, ⟨"r_key", .u32⟩, ⟨"reserved_30", .arr .u8 4⟩]

/-- Declaration of `struct cxi_method1_resp` (cxi-abi.h). -/
def cxi_method1_resp.layout : cstruct :=
  [⟨"comp_mask", .u32⟩, ⟨"nic_addr", .u32⟩, ⟨"pid_granule", .u32⟩, ⟨"pid_count", .u32⟩,
   ⟨"pid_bits", .u32⟩, ⟨"min_free_shift", .u32⟩, ⟨"reserved_48", .arr .u8 4⟩]

/-- Declaration of `struct cxi_method2_resp` (cxi-abi.h). -/
def cxi_method2_resp.layout : cstruct :=
  [⟨"comp_mask", .u32⟩, ⟨"md_handle", .u32⟩, ⟨"iova", .aligned_u64⟩,
   ⟨"length", .aligned_u64⟩, ⟨"access_flags", .u32⟩, ⟨"reserved_54", .arr .u8 4⟩]

/-- Declaration of `struct cxi_method3_resp` (cxi-abi.h). -/
def cxi_method3_resp.layout : cstruct :=
  [⟨"comp_mask", .u32⟩, ⟨"txq_handle", .u32⟩, ⟨"tgq_handle", .u32⟩, ⟨"cmdq_handle", .u32⟩,
   ⟨"eq_handle", .u32⟩, ⟨"state", .u32⟩, ⟨"reserved_50", .arr .u8 4⟩]

/-- Every command and response structure that cxi-abi.h declares, in
declaration order. -/
def cxi_abi_structs : List cstruct :=
  [cxi_alloc_ucontext_cmd.layout, cxi_alloc_ucontext_resp.layout, cxi_alloc_pd_resp.layout,
   cxi_create_cq_cmd.layout, cxi_create_cq_resp.layout, cxi_create_qp_cmd.layout,
   cxi_create_qp_resp.layout, cxi_reg_mr_cmd.layout, cxi_reg_mr_resp.layout,
   cxi_method1_resp.layout, cxi_method2_resp.layout, cxi_method3_resp.layout]

/-- Offset at which the last member of a structure starts. -/
def last_offset (s : cstruct) : Nat :=
  match s.getLast? with
  | some f => offsetof s f.name
  | none => 0

/-- The layout rule stated at the top of cxi-abi.h, for one structure: the
first member is `comp_mask` at offset 0, the size is a multiple of 8, and the
last member is a byte array that starts where the members before it end and
stops at the next 8-byte boundary. -/
def abi_aligned (s : cstruct) : Bool :=
  decide ((s.head?.map fun f => f.name) = some "comp_mask") &&
  decide (offsetof s "comp_mask" = 0) &&
  decide (sizeof s % 8 = 0) &&
  (match s.getLast? with
   | some ⟨_, .arr .u8 n⟩ =>
     decide (last_offset s = end_from 0 s.dropLast ∧
       last_offset s + n = align_up (last_offset s + 1) 8)
   | _ => false)

/-! ## Caller memory -/

/-- Bytes of the caller's buffer, indexed by their offset from the `attr`
pointer. -/
abbrev Mem := Nat → Nat

/-- C `memset(p, c, n)` on the buffer starting at offset 0. -/
def memset (m : Mem) (c n : Nat) : Mem := fun i => if i < n then c % 256 else m i

/-- Store the low `n` bytes of `v` at offset `a`, least significant byte first. -/
def store_le (m : Mem) (a : Nat) : Nat → Nat → Mem
  | 0, _ => m
  | n + 1, v => store_le (fun i => if i = a then v % 256 else m i) (a + 1) n (v / 256)

/-- Load the `n`-byte little-endian value at offset `a`. -/
def load_le (m : Mem) (a : Nat) : Nat → Nat
  | 0 => 0
  | n + 1 => m a + 256 * load_le m (a + 1) n

/-- Assignment `attr->field = v` for a member of structure `s`. -/
def store_field (s : cstruct) (field : String) (m : Mem) (v : Nat) : Mem :=
  store_le m (offsetof s field) (field_size s field) v

/-- Read of `attr->field` for a member of structure `s`. -/
def load_field (s : cstruct) (field : String) (m : Mem) : Nat :=
  load_le m (offsetof s field) (field_size s field)

/-- Byte offset `i` lies inside member `field` of structure `s`. -/
def in_field (s : cstruct) (field : String) (i : Nat) : Prop :=
  offsetof s field ≤ i ∧ i < offsetof s field + field_size s field

instance (s : cstruct) (field : String) (i : Nat) : Decidable (in_field s field i) :=
  inferInstanceAs (Decidable (offsetof s field ≤ i ∧ i < offsetof s field + field_size s field))

/-! ## Error codes -/

/-- Modelled from the spec: the invalid-argument error code returned on
validation failure; `errno.h` is not under src/, the Linux value is used. -/
def EINVAL : Int := 22

/-- Modelled from the spec: the operation-not-implemented error code returned
by the work-submission stubs; `errno.h` is not under src/, the Linux value is
used. -/
def ENOSYS : Int := 38

/-- Modelled from the spec: the resource-exhaustion error code of the
work-queue capacity check; `errno.h` is not under src/, the Linux value is
used. -/
def ENOMEM : Int := 12

/-! ## Vendor method and attribute identifiers (cxi-abi.h / cxidv.h) -/

def UVERBS_ID_NS_SHIFT : Nat := 29

def CXI_IB_ATTR_METHOD1_RESP_NIC_ADDR : Nat := 1 <<< UVERBS_ID_NS_SHIFT
def CXI_IB_ATTR_METHOD1_RESP_PID_GRANULE : Nat := CXI_IB_ATTR_METHOD1_RESP_NIC_ADDR + 1
def CXI_IB_ATTR_METHOD1_RESP_PID_COUNT : Nat := CXI_IB_ATTR_METHOD1_RESP_NIC_ADDR + 2
def CXI_IB_ATTR_METHOD1_RESP_PID_BITS : Nat := CXI_IB_ATTR_METHOD1_RESP_NIC_ADDR + 3
def CXI_IB_ATTR_METHOD1_RESP_MIN_FREE_SHIFT : Nat := CXI_IB_ATTR_METHOD1_RESP_NIC_ADDR + 4
def CXI_IB_ATTR_METHOD2_MR_HANDLE : Nat := CXI_IB_ATTR_METHOD1_RESP_NIC_ADDR + 5
def CXI_IB_ATTR_METHOD2_RESP_MD_HANDLE : Nat := CXI_IB_ATTR_METHOD1_RESP_NIC_ADDR + 6
def CXI_IB_ATTR_METHOD2_RESP_IOVA : Nat := CXI_IB_ATTR_METHOD1_RESP_NIC_ADDR + 7
def CXI_IB_ATTR_METHOD2_RESP_LENGTH : Nat := CXI_IB_ATTR_METHOD1_RESP_NIC_ADDR + 8
def CXI_IB_ATTR_METHOD2_RESP_ACCESS_FLAGS : Nat := CXI_IB_ATTR_METHOD1_RESP_NIC_ADDR + 9
def CXI_IB_ATTR_METHOD3_QP_HANDLE : Nat := CXI_IB_ATTR_METHOD1_RESP_NIC_ADDR + 10
def CXI_IB_ATTR_METHOD3_RESP_TXQ_HANDLE : Nat := CXI_IB_ATTR_METHOD1_RESP_NIC_ADDR + 11
def CXI_IB_ATTR_METHOD3_RESP_TGQ_HANDLE : Nat := CXI_IB_ATTR_METHOD1_RESP_NIC_ADDR + 12
def CXI_IB_ATTR_METHOD3_RESP_CMDQ_HANDLE : Nat := CXI_IB_ATTR_METHOD1_RESP_NIC_ADDR + 13
def CXI_IB_ATTR_METHOD3_RESP_EQ_HANDLE : Nat := CXI_IB_ATTR_METHOD1_RESP_NIC_ADDR + 14
def CXI_IB_ATTR_METHOD3_RESP_STATE : Nat := CXI_IB_ATTR_METHOD1_RESP_NIC_ADDR + 15

def CXI_IB_METHOD_1 : Nat := 1 <<< UVERBS_ID_NS_SHIFT
def CXI_IB_METHOD_2 : Nat := CXI_IB_METHOD_1 + 1
def CXI_IB_METHOD_3 : Nat := CXI_IB_METHOD_1 + 2

def CXI_IB_OBJECT_GENERIC : Nat := 1 <<< UVERBS_ID_NS_SHIFT

/-! ## Command transport for the vendor methods -/

/-- One attribute of a vendor method request: an input object handle
(`fill_attr_in_obj`) or an output buffer of `len` bytes (`fill_attr_out_ptr`). -/
inductive ioctl_attr where
  | in_obj (id handle : Nat)
  | out_ptr (id len : Nat)
  deriving DecidableEq, Repr

/-- The command buffer built by `DECLARE_COMMAND_BUFFER` and the `fill_attr_*`
calls. -/
structure ioctl_cmd where
  object_id : Nat
  method_id : Nat
  num_attrs : Nat
  attrs : List ioctl_attr
  deriving DecidableEq, Repr

/-- What `execute_ioctl` hands back: its return value and, per output
attribute identifier, the value the kernel stored in the attached buffer. -/
structure ioctl_reply where
  ret : Int
  out : Nat → Nat

/-- The response structures of cxi-abi.h, zero-initialised by `= {}`. -/
structure cxi_method1_resp where
  comp_mask : Nat := 0
  nic_addr : Nat := 0
  pid_granule : Nat := 0
  pid_count : Nat := 0
  pid_bits : Nat := 0
  min_free_shift : Nat := 0
  deriving DecidableEq, Repr

structure cxi_method2_resp where
  comp_mask : Nat := 0
  md_handle : Nat := 0
  iova : Nat := 0
  length : Nat := 0
  access_flags : Nat := 0
  deriving DecidableEq, Repr

structure cxi_method3_resp where
  comp_mask : Nat := 0
  txq_handle : Nat := 0
  tgq_handle : Nat := 0
  cmdq_handle : Nat := 0
  eq_handle : Nat := 0
  state : Nat := 0
  deriving DecidableEq, Repr

/-! ## Resource records (cxi.h) -/

/-- Modelled from the spec: the queue-pair states RESET, INIT, RTR, RTS, SQD,
SQE and Error of `enum ibv_qp_state`, which the generic verbs header (not under
src/) declares; the order is the one of `CXIDV_QP_STATE_*` in cxidv.h. -/
inductive ibv_qp_state where
  | IBV_QPS_RESET
  | IBV_QPS_INIT
  | IBV_QPS_RTR
  | IBV_QPS_RTS
  | IBV_QPS_SQD
  | IBV_QPS_SQE
  | IBV_QPS_ERR
  deriving DecidableEq, Repr

open ibv_qp_state

/-- Modelled from the spec: the generic queue-pair object `struct ibv_qp`,
declared by the generic verbs header (not under src/); kept are the kernel
handle that `cxidv_method3` passes as input and the queue-pair number. -/
structure ibv_qp where
  handle : Nat := 0
  qp_num : Nat := 0
  deriving DecidableEq, Repr

/-- Modelled from the spec: the generic memory-region object `struct ibv_mr`,
declared by the generic verbs header (not under src/); kept are the kernel
handle that `cxidv_method2` passes as input and the local and remote keys. -/
structure ibv_mr where
  handle : Nat := 0
  lkey : Nat := 0
  rkey : Nat := 0
  deriving DecidableEq, Repr

/-- Modelled from the spec: the generic protection-domain object
`struct ibv_pd`, declared by the generic verbs header (not under src/); kept
is the kernel handle that the generic dealloc command names. -/
structure ibv_pd where
  handle : Nat := 0
  deriving DecidableEq, Repr

/-- Modelled from the spec: the generic completion-queue object
`struct ibv_cq` inside `struct verbs_cq`, declared by the generic verbs
header (not under src/); kept are the kernel handle and the depth granted. -/
structure ibv_cq where
  handle : Nat := 0
  cqe : Nat := 0
  deriving DecidableEq, Repr

/-- Modelled from the spec: the generic address-handle object `struct ibv_ah`,
declared by the generic verbs header (not under src/); kept is the kernel
handle. -/
structure ibv_ah where
  handle : Nat := 0
  deriving DecidableEq, Repr

/-- Modelled from the spec: the device `struct ibv_device` of the generic
verbs header (not under src/); kept is the device name, whose characters stop
at the first NUL. -/
structure ibv_device where
  name : String := ""
  deriving DecidableEq, Repr

/-- Modelled from the spec: the generic context `struct ibv_context`, declared
by the generic verbs header (not under src/); kept are the device and the
command file descriptor. -/
structure ibv_context where
  device : ibv_device := {}
  cmd_fd : Int := 0
  deriving DecidableEq, Repr

/-- Record `struct cxi_wq`; pointers are addresses, 0 being NULL. -/
structure cxi_wq where
  wrid : Nat := 0
  wrid_idx_pool : Nat := 0
  wqe_cnt : Nat := 0
  wqe_posted : Nat := 0
  wqe_completed : Nat := 0
  pc : Nat := 0
  desc_mask : Nat := 0
  wrid_idx_pool_next : Nat := 0
  deriving DecidableEq, Repr

/-- Record `struct cxi_cq`; `verbs_cq` is the embedded generic object, `dv_cq`
the comp_mask of the embedded `struct cxidv_cq`, and `lock` tells whether the
spinlock has been initialised. -/
structure cxi_cq where
  verbs_cq : ibv_cq := {}
  dv_cq : Nat := 0
  cqn : Nat := 0
  cq_idx : Nat := 0
  cqe_size : Nat := 0
  buf : Nat := 0
  buf_size : Nat := 0
  db : Nat := 0
  db_mmap_addr : Nat := 0
  cc : Nat := 0
  cmd_sn : Nat := 0
  lock : Bool := false
  deriving DecidableEq, Repr

/-- Record `struct cxi_qp`; `verbs_qp` is the embedded generic object, the
two locks tell whether the spinlocks have been initialised. -/
structure cxi_qp where
  verbs_qp : ibv_qp := {}
  sq : cxi_wq := {}
  rq : cxi_wq := {}
  qp_handle : Nat := 0
  qp_num : Nat := 0
  sq_db_offset : Nat := 0
  rq_db_offset : Nat := 0
  sq_db_mmap_addr : Nat := 0
  rq_db_mmap_addr : Nat := 0
  sq_db : Nat := 0
  rq_db : Nat := 0
  sq_buf : Nat := 0
  rq_buf : Nat := 0
  sq_buf_size : Nat := 0
  rq_buf_size : Nat := 0
  state : ibv_qp_state := IBV_QPS_RESET
  sq_lock : Bool := false
  rq_lock : Bool := false
  deriving DecidableEq, Repr

/-- Record `struct cxi_context`; `ibvctx` is the embedded generic context and
a NULL `qp_table` is the empty table. -/
structure cxi_context where
  ibvctx : ibv_context := {}
  cmds_supp_udata_mask : Nat := 0
  uarn : Nat := 0
  device_caps : Nat := 0
  max_sq_wr : Nat := 0
  max_rq_wr : Nat := 0
  max_sq_sge : Nat := 0
  max_rq_sge : Nat := 0
  max_rdma_size : Nat := 0
  max_wr_rdma_sge : Nat := 0
  qp_table : List (Option cxi_qp) := []
  qp_table_sz_m1 : Nat := 0
  qp_table_lock : Bool := false
  deriving DecidableEq, Repr

/-- The integer members of a context hold values of their C types. -/
def cxi_context.wf (ctx : cxi_context) : Prop :=
  ctx.device_caps < 2 ^ 32 ∧ ctx.max_sq_wr < 2 ^ 32 ∧ ctx.max_rq_wr < 2 ^ 32 ∧
  ctx.max_sq_sge < 2 ^ 16 ∧ ctx.max_rq_sge < 2 ^ 16 ∧ ctx.max_rdma_size < 2 ^ 32

instance (ctx : cxi_context) : Decidable ctx.wf :=
  inferInstanceAs (Decidable (ctx.device_caps < 2 ^ 32 ∧ ctx.max_sq_wr < 2 ^ 32 ∧
    ctx.max_rq_wr < 2 ^ 32 ∧ ctx.max_sq_sge < 2 ^ 16 ∧ ctx.max_rq_sge < 2 ^ 16 ∧
    ctx.max_rdma_size < 2 ^ 32))

/-- Command `struct cxi_create_qp_cmd` (cxi-abi.h). -/
structure cxi_create_qp_cmd where
  comp_mask : Nat := 0
  sq_depth : Nat := 0
  rq_depth : Nat := 0
  send_cq_idx : Nat := 0
  recv_cq_idx : Nat := 0
  deriving DecidableEq, Repr

/-- Response `struct cxi_create_qp_resp` (cxi-abi.h). -/
structure cxi_create_qp_resp where
  comp_mask : Nat := 0
  qp_handle : Nat := 0
  qp_num : Nat := 0
  sq_db_offset : Nat := 0
  rq_db_offset : Nat := 0
  deriving DecidableEq, Repr

/-- Modelled from the spec: the capacities `struct ibv_qp_cap` requested for a
queue pair (send and receive depth, scatter-gather entries), declared by the
generic verbs header (not under src/). -/
structure ibv_qp_cap where
  max_send_wr : Nat := 0
  max_recv_wr : Nat := 0
  max_send_sge : Nat := 0
  max_recv_sge : Nat := 0
  max_inline_data : Nat := 0
  deriving DecidableEq, Repr

/-- Modelled from the spec: the creation attributes `struct ibv_qp_init_attr`
(and its `_ex` variant), declared by the generic verbs header (not under
src/); kept are the members the provider reads, an absent completion queue
being a NULL pointer. -/
structure ibv_qp_init_attr where
  send_cq : Option cxi_cq := none
  recv_cq : Option cxi_cq := none
  cap : ibv_qp_cap := {}
  deriving DecidableEq, Repr

/-- Modelled from the spec: the attribute values `struct ibv_qp_attr` that
`modify_qp` forwards, declared by the generic verbs header (not under src/);
kept is the member the provider reads, the requested state. -/
structure ibv_qp_attr where
  qp_state : ibv_qp_state := IBV_QPS_RESET
  deriving DecidableEq, Repr

/-- Record `struct cxi_pd`. -/
structure cxi_pd where
  ibvpd : ibv_pd := {}
  pdn : Nat := 0
  deriving DecidableEq, Repr

/-- Record `struct cxi_mr`. -/
structure cxi_mr where
  verbs_mr : ibv_mr := {}
  md_handle : Nat := 0
  deriving DecidableEq, Repr

/-- Record `struct cxi_ah`. -/
structure cxi_ah where
  ibvah : ibv_ah := {}
  ahn : Nat := 0
  deriving DecidableEq, Repr

/-- Command `struct cxi_ibv_alloc_ucontext_cmd` (cxidv.h). -/
structure cxi_ibv_alloc_ucontext_cmd where
  comp_mask : Nat := 0
  deriving DecidableEq, Repr

/-- Response `struct cxi_ibv_alloc_ucontext_resp` (cxidv.h). -/
structure cxi_ibv_alloc_ucontext_resp where
  comp_mask : Nat := 0
  uarn : Nat := 0
  deriving DecidableEq, Repr

/-- Response `struct cxi_alloc_pd_resp` (cxi-abi.h). -/
structure cxi_alloc_pd_resp where
  comp_mask : Nat := 0
  pdn : Nat := 0
  deriving DecidableEq, Repr

/-- Command `struct cxi_reg_mr_cmd` (cxi-abi.h). -/
structure cxi_reg_mr_cmd where
  comp_mask : Nat := 0
  start : Nat := 0
  length : Nat := 0
  virt_addr : Nat := 0
  access_flags : Nat := 0
  deriving DecidableEq, Repr

/-- Response `struct cxi_reg_mr_resp` (cxi-abi.h). -/
structure cxi_reg_mr_resp where
  comp_mask : Nat := 0
  l_key : Nat := 0
  r_key : Nat := 0
  deriving DecidableEq, Repr

/-- Command `struct cxi_create_cq_cmd` (cxi-abi.h). -/
structure cxi_create_cq_cmd where
  comp_mask : Nat := 0
  cq_depth : Nat := 0
  eqn : Nat := 0
  deriving DecidableEq, Repr

/-- Response `struct cxi_create_cq_resp` (cxi-abi.h). -/
structure cxi_create_cq_resp where
  comp_mask : Nat := 0
  cq_idx : Nat := 0
  actual_depth : Nat := 0
  db_off : Nat := 0
  deriving DecidableEq, Repr

/-- Modelled from the spec: the extended creation attributes
`struct ibv_cq_init_attr_ex` of the generic verbs header (not under src/);
kept are the members the provider reads. -/
structure ibv_cq_init_attr_ex where
  cqe : Nat := 0
  comp_vector : Nat := 0
  deriving DecidableEq, Repr

/-- Modelled from the spec: the destination description `struct ibv_ah_attr`
of the generic verbs header (not under src/), which the provider only
forwards; kept are the destination identifier and the port. -/
structure ibv_ah_attr where
  dlid : Nat := 0
  port_num : Nat := 0
  deriving DecidableEq, Repr

/-! ## Effects -/

/-- Kinds of resource record. -/
inductive resource where
  | context
  | pd
  | mr
  | cq
  | qp
  | ah
  deriving DecidableEq, Repr

/-- Requests sent through the generic command transport (`ibv_cmd_*`). -/
inductive uverbs_cmd where
  | create_qp (cmd : cxi_create_qp_cmd)
  | create_qp_ex (cmd : cxi_create_qp_cmd)
  | modify_qp (handle : Nat) (attr : ibv_qp_attr) (attr_mask : Nat)
  | query_qp (handle : Nat) (attr_mask : Nat)
  | destroy_qp (handle : Nat)
  | get_context (cmd : cxi_ibv_alloc_ucontext_cmd)
  | alloc_pd
  | dealloc_pd (handle : Nat)
  | reg_mr (cmd : cxi_reg_mr_cmd)
  | dereg_mr (handle : Nat)
  | create_cq (cmd : cxi_create_cq_cmd)
  | create_cq_ex (cmd : cxi_create_cq_cmd)
  | destroy_cq (handle : Nat)
  | create_ah (attr : ibv_ah_attr)
  | destroy_ah (handle : Nat)
  | query_device
  deriving DecidableEq, Repr

/-- Observable effects of an entry point, in program order. -/
inductive event where
  | ioctl (cmd : ioctl_cmd)
  | cmd (c : uverbs_cmd)
  | calloc (r : resource)
  | free (r : resource)
  | spin_init (lock : String)
  | spin_destroy (lock : String)
  | uninit_context
  deriving DecidableEq, Repr

/-- Outcome of a direct-verbs query: the C return value, the caller's buffer
afterwards (`none` is the NULL pointer) and the effects performed. -/
structure dv_result where
  ret : Int
  attr : Option Mem
  events : List event

/-! ## Direct-verbs queries (verbs.c) -/

/-- Function `cxidv_query_device`: answered from the capabilities cached in
the context. -/
def cxidv_query_device (ctx : cxi_context) (attr : Option Mem) (inlen : Nat) : dv_result :=
  match attr with
  | none => ⟨EINVAL, none, []⟩
  | some buf =>
    if inlen < sizeof cxidv_device_attr then ⟨EINVAL, some buf, []⟩
    else
      let buf := memset buf 0 inlen
      let buf := store_field cxidv_device_attr "comp_mask" buf 0
      let buf := store_field cxidv_device_attr "max_sq_wr" buf ctx.max_sq_wr
      let buf := store_field cxidv_device_attr "max_rq_wr" buf ctx.max_rq_wr
      let buf := store_field cxidv_device_attr "max_sq_sge" buf ctx.max_sq_sge
      let buf := store_field cxidv_device_attr "max_rq_sge" buf ctx.max_rq_sge
      let buf := store_field cxidv_device_attr "device_caps" buf ctx.device_caps
      let buf := store_field cxidv_device_attr "max_rdma_size" buf ctx.max_rdma_size
      ⟨0, some buf, []⟩

/-- The command buffer that `cxidv_method1` builds. -/
def method1_cmd : ioctl_cmd :=
  { object_id := CXI_IB_OBJECT_GENERIC, method_id := CXI_IB_METHOD_1, num_attrs := 5,
    attrs := [.out_ptr CXI_IB_ATTR_METHOD1_RESP_NIC_ADDR 4,
              .out_ptr CXI_IB_ATTR_METHOD1_RESP_PID_GRANULE 4,
              .out_ptr CXI_IB_ATTR_METHOD1_RESP_PID_COUNT 4,
              .out_ptr CXI_IB_ATTR_METHOD1_RESP_PID_BITS 4,
              .out_ptr CXI_IB_ATTR_METHOD1_RESP_MIN_FREE_SHIFT 4] }

/-- Function `cxidv_method1`; `execute_ioctl` is the transport bound to the
context. -/
def cxidv_method1 (execute_ioctl : ioctl_cmd → ioctl_reply) (attr : Option Mem)
    (inlen : Nat) : dv_result :=
  match attr with
  | none => ⟨EINVAL, none, []⟩
  | some buf =>
    if inlen < sizeof cxidv_method1_attr then ⟨EINVAL, some buf, []⟩
    else
      let reply := execute_ioctl method1_cmd
      if reply.ret ≠ 0 then ⟨reply.ret, some buf, [.ioctl method1_cmd]⟩
      else
        let resp : cxi_method1_resp :=
          { nic_addr := reply.out CXI_IB_ATTR_METHOD1_RESP_NIC_ADDR % 2 ^ 32,
            pid_granule := reply.out CXI_IB_ATTR_METHOD1_RESP_PID_GRANULE % 2 ^ 32,
            pid_count := reply.out CXI_IB_ATTR_METHOD1_RESP_PID_COUNT % 2 ^ 32,
            pid_bits := reply.out CXI_IB_ATTR_METHOD1_RESP_PID_BITS % 2 ^ 32,
            min_free_shift := reply.out CXI_IB_ATTR_METHOD1_RESP_MIN_FREE_SHIFT % 2 ^ 32 }
        let buf := memset buf 0 inlen
        let buf := store_field cxidv_method1_attr "comp_mask" buf resp.comp_mask
        let buf := store_field cxidv_method1_attr "nic_addr" buf resp.nic_addr
        let buf := store_field cxidv_method1_attr "pid_granule" buf resp.pid_granule
        let buf := store_field cxidv_method1_attr "pid_count" buf resp.pid_count
        let buf := store_field cxidv_method1_attr "pid_bits" buf resp.pid_bits
        let buf := store_field cxidv_method1_attr "min_free_shift" buf resp.min_free_shift
        ⟨0, some buf, [.ioctl method1_cmd]⟩

/-- The command buffer that `cxidv_method2` builds for a memory region. -/
def method2_cmd (mr : ibv_mr) : ioctl_cmd :=
  { object_id := CXI_IB_OBJECT_GENERIC, method_id := CXI_IB_METHOD_2, num_attrs := 5,
    attrs := [.in_obj CXI_IB_ATTR_METHOD2_MR_HANDLE mr.handle,
              .out_ptr CXI_IB_ATTR_METHOD2_RESP_MD_HANDLE 4,
              .out_ptr CXI_IB_ATTR_METHOD2_RESP_IOVA 8,
              .out_ptr CXI_IB_ATTR_METHOD2_RESP_LENGTH 8,
              .out_ptr CXI_IB_ATTR_METHOD2_RESP_ACCESS_FLAGS 4] }

/-- Function `cxidv_method2`; `execute_ioctl` is the transport bound to the
context of the memory region. -/
def cxidv_method2 (execute_ioctl : ioctl_cmd → ioctl_reply) (mr : ibv_mr)
    (attr : Option Mem) (inlen : Nat) : dv_result :=
  match attr with
  | none => ⟨EINVAL, none, []⟩
  | some buf =>
    if inlen < sizeof cxidv_method2_attr then ⟨EINVAL, some buf, []⟩
    else
      let reply := execute_ioctl (method2_cmd mr)
      if reply.ret ≠ 0 then ⟨reply.ret, some buf, [.ioctl (method2_cmd mr)]⟩
      else
        let resp : cxi_method2_resp :=
          { md_handle := reply.out CXI_IB_ATTR_METHOD2_RESP_MD_HANDLE % 2 ^ 32,
            iova := reply.out CXI_IB_ATTR_METHOD2_RESP_IOVA % 2 ^ 64,
            length := reply.out CXI_IB_ATTR_METHOD2_RESP_LENGTH % 2 ^ 64,
            access_flags := reply.out CXI_IB_ATTR_METHOD2_RESP_ACCESS_FLAGS % 2 ^ 32 }
        let buf := memset buf 0 inlen
        let buf := store_field cxidv_method2_attr "comp_mask" buf resp.comp_mask
        let buf := store_field cxidv_method2_attr "md_handle" buf resp.md_handle
        let buf := store_field cxidv_method2_attr "iova" buf resp.iova
        let buf := store_field cxidv_method2_attr "length" buf resp.length
        let buf := store_field cxidv_method2_attr "access_flags" buf resp.access_flags
        ⟨0, some buf, [.ioctl (method2_cmd mr)]⟩

/-- The command buffer that `cxidv_method3` builds for a queue pair. -/
def method3_cmd (qp : ibv_qp) : ioctl_cmd :=
  { object_id := CXI_IB_OBJECT_GENERIC, method_id := CXI_IB_METHOD_3, num_attrs := 6,
    attrs := [.in_obj CXI_IB_ATTR_METHOD3_QP_HANDLE qp.handle,
              .out_ptr CXI_IB_ATTR_METHOD3_RESP_TXQ_HANDLE 4,
              .out_ptr CXI_IB_ATTR_METHOD3_RESP_TGQ_HANDLE 4,
              .out_ptr CXI_IB_ATTR_METHOD3_RESP_CMDQ_HANDLE 4,
              .out_ptr CXI_IB_ATTR_METHOD3_RESP_EQ_HANDLE 4,
              .out_ptr CXI_IB_ATTR_METHOD3_RESP_STATE 4] }

/-- Function `cxidv_method3`; `execute_ioctl` is the transport bound to the
context of the queue pair. -/
def cxidv_method3 (execute_ioctl : ioctl_cmd → ioctl_reply) (qp : ibv_qp)
    (attr : Option Mem) (inlen : Nat) : dv_result :=
  match attr with
  | none => ⟨EINVAL, none, []⟩
  | some buf =>
    if inlen < sizeof cxidv_method3_attr then ⟨EINVAL, some buf, []⟩
    else
      let reply := execute_ioctl (method3_cmd qp)
      if reply.ret ≠ 0 then ⟨reply.ret, some buf, [.ioctl (method3_cmd qp)]⟩
      else
        let resp : cxi_method3_resp :=
          { txq_handle := reply.out CXI_IB_ATTR_METHOD3_RESP_TXQ_HANDLE % 2 ^ 32,
            tgq_handle := reply.out CXI_IB_ATTR_METHOD3_RESP_TGQ_HANDLE % 2 ^ 32,
            cmdq_handle := reply.out CXI_IB_ATTR_METHOD3_RESP_CMDQ_HANDLE % 2 ^ 32,
            eq_handle := reply.out CXI_IB_ATTR_METHOD3_RESP_EQ_HANDLE % 2 ^ 32,
            state := reply.out CXI_IB_ATTR_METHOD3_RESP_STATE % 2 ^ 32 }
        let buf := memset buf 0 inlen
        let buf := store_field cxidv_method3_attr "comp_mask" buf resp.comp_mask
        let buf := store_field cxidv_method3_attr "txq_handle" buf resp.txq_handle
        let buf := store_field cxidv_method3_attr "tgq_handle" buf resp.tgq_handle
        let buf := store_field cxidv_method3_attr "cmdq_handle" buf resp.cmdq_handle
        let buf := store_field cxidv_method3_attr "eq_handle" buf resp.eq_handle
        let buf := store_field cxidv_method3_attr "state" buf resp.state
        ⟨0, some buf, [.ioctl (method3_cmd qp)]⟩

/-! ## Work submission and queue pairs (verbs.c) -/

/-- Outcome of `cxi_post_send` / `cxi_post_recv`: the return value, the list
that `*bad_wr` points to afterwards, and the queue pair afterwards. -/
structure post_result (WR : Type) where
  ret : Int
  bad_wr : List WR
  qp : cxi_qp

/-- Function `cxi_post_send`; the linked list `wr` is the list of its
requests, `*bad_wr` pointing at a request is the suffix starting there. -/
def cxi_post_send {WR : Type} (ibvqp : cxi_qp) (wr : List WR) : post_result WR :=
  { ret := ENOSYS, bad_wr := wr, qp := ibvqp }

/-- Function `cxi_post_recv`. -/
def cxi_post_recv {WR : Type} (ibvqp : cxi_qp) (wr : List WR) : post_result WR :=
  { ret := ENOSYS, bad_wr := wr, qp := ibvqp }

/-- What the generic create command hands back: its return value, the
generic object it filled in and the vendor response. -/
structure create_qp_reply where
  ret : Int
  ibv : ibv_qp
  resp : cxi_create_qp_resp

/-- Outcome of `cxi_create_qp` / `cxi_create_qp_ex`: the returned record
(`none` is NULL) and the effects performed. -/
structure create_qp_result where
  qp : Option cxi_qp
  events : List event

/-- The vendor command that both create entry points build. -/
def create_qp_cmd (attr : ibv_qp_init_attr) : cxi_create_qp_cmd :=
  { sq_depth := attr.cap.max_send_wr % 2 ^ 32,
    rq_depth := attr.cap.max_recv_wr % 2 ^ 32,
    send_cq_idx := match attr.send_cq with
      | some cq => cq.cq_idx % 2 ^ 16
      | none => 0,
    recv_cq_idx := match attr.recv_cq with
      | some cq => cq.cq_idx % 2 ^ 16
      | none => 0 }

/-- Function `cxi_create_qp`; `calloc_ok` tells whether the allocation
succeeds, `ibv_cmd_create_qp` is the generic command transport. -/
def cxi_create_qp (calloc_ok : Bool) (ibv_cmd_create_qp : cxi_create_qp_cmd → create_qp_reply)
    (attr : ibv_qp_init_attr) : create_qp_result :=
  if !calloc_ok then ⟨none, []⟩
  else
    let qp : cxi_qp := {}
    let cmd := create_qp_cmd attr
    let reply := ibv_cmd_create_qp cmd
    if reply.ret ≠ 0 then
      ⟨none, [.calloc .qp, .cmd (.create_qp cmd), .free .qp]⟩
    else
      let qp := { qp with verbs_qp := reply.ibv }
      let qp := { qp with qp_handle := reply.resp.qp_handle % 2 ^ 32 }
      let qp := { qp with qp_num := reply.resp.qp_num % 2 ^ 32 }
      let qp := { qp with sq_db_offset := reply.resp.sq_db_offset % 2 ^ 32 }
      let qp := { qp with rq_db_offset := reply.resp.rq_db_offset % 2 ^ 32 }
      let qp := { qp with state := IBV_QPS_RESET }
      let qp := { qp with sq_lock := true }
      let qp := { qp with rq_lock := true }
      ⟨some qp, [.calloc .qp, .cmd (.create_qp cmd), .spin_init "sq_lock",
                 .spin_init "rq_lock"]⟩

/-- Function `cxi_create_qp_ex`. -/
def cxi_create_qp_ex (calloc_ok : Bool)
    (ibv_cmd_create_qp_ex : cxi_create_qp_cmd → create_qp_reply)
    (qp_init_attr_ex : ibv_qp_init_attr) : create_qp_result :=
  if !calloc_ok then ⟨none, []⟩
  else
    let qp : cxi_qp := {}
    let cmd := create_qp_cmd qp_init_attr_ex
    let reply := ibv_cmd_create_qp_ex cmd
    if reply.ret ≠ 0 then
      ⟨none, [.calloc .qp, .cmd (.create_qp_ex cmd), .free .qp]⟩
    else
      let qp := { qp with verbs_qp := reply.ibv }
      let qp := { qp with qp_handle := reply.resp.qp_handle % 2 ^ 32 }
      let qp := { qp with qp_num := reply.resp.qp_num % 2 ^ 32 }
      let qp := { qp with sq_db_offset := reply.resp.sq_db_offset % 2 ^ 32 }
      let qp := { qp with rq_db_offset := reply.resp.rq_db_offset % 2 ^ 32 }
      let qp := { qp with state := IBV_QPS_RESET }
      let qp := { qp with sq_lock := true }
      let qp := { qp with rq_lock := true }
      ⟨some qp, [.calloc .qp, .cmd (.create_qp_ex cmd), .spin_init "sq_lock",
                 .spin_init "rq_lock"]⟩

/-- Outcome of `cxi_modify_qp`: the return value, the queue pair afterwards
and the effects performed. -/
structure modify_qp_result where
  ret : Int
  qp : cxi_qp
  events : List event

/-- Function `cxi_modify_qp`; `IBV_QP_STATE` is the state bit of the
attribute mask (declared by the generic verbs header) and `ibv_cmd_modify_qp`
the generic command transport, which gives its return value. -/
def cxi_modify_qp (IBV_QP_STATE : Nat) (ibv_cmd_modify_qp : ibv_qp → ibv_qp_attr → Nat → Int)
    (qp : cxi_qp) (attr : ibv_qp_attr) (attr_mask : Nat) : modify_qp_result :=
  let cmd := uverbs_cmd.modify_qp qp.verbs_qp.handle attr attr_mask
  let ret := ibv_cmd_modify_qp qp.verbs_qp attr attr_mask
  if ret ≠ 0 then ⟨ret, qp, [.cmd cmd]⟩
  else if attr_mask &&& IBV_QP_STATE ≠ 0 then
    ⟨0, { qp with state := attr.qp_state }, [.cmd cmd]⟩
  else ⟨0, qp, [.cmd cmd]⟩

/-- Value of `wqe_posted − wqe_completed` in 32-bit unsigned arithmetic. -/
def cxi_wq.outstanding (wq : cxi_wq) : Nat :=
  (wq.wqe_posted + 2 ^ 32 - wq.wqe_completed % 2 ^ 32) % 2 ^ 32

/-- A caller posting the request lists `wrs` one call after another with
`cxi_post_send`; gives the return values in order and the final queue pair. -/
def post_send_seq {WR : Type} (qp : cxi_qp) : List (List WR) → List Int × cxi_qp
  | [] => ([], qp)
  | wr :: rest =>
    let r := cxi_post_send qp wr
    let rest' := post_send_seq r.qp rest
    (r.ret :: rest'.1, rest'.2)

/-! ## Device context (cxi.c, verbs.c, cxidv.h) -/

/-- Modelled from the spec: the comparison `strncmp` of the C library (not
under src/) behind the device-name prefix match: at most `n` characters are
compared, a string that has ended reads as NUL, and the comparison stops at
the first difference or at a common NUL. -/
def strncmp : List Char → List Char → Nat → Int
  | _, _, 0 => 0
  | s1, s2, n + 1 =>
    let c1 := (s1.headD (Char.ofNat 0)).toNat
    let c2 := (s2.headD (Char.ofNat 0)).toNat
    if c1 ≠ c2 then (c1 : Int) - (c2 : Int)
    else if c1 = 0 then 0
    else strncmp s1.tail s2.tail n

/-- Function `cxidv_is_supported` (cxidv.h). -/
def cxidv_is_supported (context : ibv_context) : Int :=
  if strncmp context.device.name.toList "cxi_".toList 4 = 0 then 1 else 0

/-- Outcome of `cxi_query_device_ctx`: the return value, the context
afterwards and the effects performed. -/
structure query_device_ctx_result where
  ret : Int
  ctx : cxi_context
  events : List event

/-- Function `cxi_query_device_ctx`; the local `attr` starts zero-filled. -/
def cxi_query_device_ctx (ctx : cxi_context) : query_device_ctx_result :=
  let attr : Mem := fun _ => 0
  let r := cxidv_query_device ctx (some attr) (sizeof cxidv_device_attr)
  if r.ret ≠ 0 then ⟨r.ret, ctx, r.events⟩
  else
    let attr := r.attr.getD attr
    let ctx := { ctx with device_caps := load_field cxidv_device_attr "device_caps" attr }
    let ctx := { ctx with max_sq_wr := load_field cxidv_device_attr "max_sq_wr" attr }
    let ctx := { ctx with max_rq_wr := load_field cxidv_device_attr "max_rq_wr" attr }
    let ctx := { ctx with max_sq_sge := load_field cxidv_device_attr "max_sq_sge" attr }
    let ctx := { ctx with max_rq_sge := load_field cxidv_device_attr "max_rq_sge" attr }
    let ctx := { ctx with max_rdma_size := load_field cxidv_device_attr "max_rdma_size" attr }
    ⟨0, ctx, r.events⟩

/-- What the generic get-context command hands back. -/
structure get_context_reply where
  ret : Int
  resp : cxi_ibv_alloc_ucontext_resp

/-- Outcome of `cxi_alloc_context`: the returned context (`none` is NULL) and
the effects performed. -/
structure alloc_context_result where
  ctx : Option cxi_context
  events : List event

/-- Function `cxi_alloc_context` (cxi.c); `alloc_ok` tells whether
`verbs_init_and_alloc_context` obtains a (zero-filled) context. -/
def cxi_alloc_context (alloc_ok : Bool)
    (ibv_cmd_get_context : cxi_ibv_alloc_ucontext_cmd → get_context_reply)
    (vdev : ibv_device) (cmd_fd : Int) : alloc_context_result :=
  if !alloc_ok then ⟨none, []⟩
  else
    let ctx : cxi_context := { ibvctx := { device := vdev, cmd_fd := cmd_fd } }
    let cmd : cxi_ibv_alloc_ucontext_cmd := {}
    let reply := ibv_cmd_get_context cmd
    if reply.ret ≠ 0 then
      ⟨none, [.calloc .context, .cmd (.get_context cmd), .uninit_context, .free .context]⟩
    else
      let ctx := { ctx with uarn := reply.resp.uarn % 2 ^ 16 }
      let ctx := { ctx with cmds_supp_udata_mask := 0 }
      let ctx := { ctx with qp_table_lock := true }
      let q := cxi_query_device_ctx ctx
      if q.ret ≠ 0 then
        ⟨none, [.calloc .context, .cmd (.get_context cmd), .spin_init "qp_table_lock"] ++
          q.events ++ [.spin_destroy "qp_table_lock", .uninit_context, .free .context]⟩
      else
        ⟨some q.ctx, [.calloc .context, .cmd (.get_context cmd),
          .spin_init "qp_table_lock"] ++ q.events⟩

/-! ## Resource lifecycle (verbs.c) -/

/-- Outcome of a destroy entry point: the return value, the local record
afterwards (`none` once it has been freed) and the effects performed. -/
structure destroy_result (R : Type) where
  ret : Int
  record : Option R
  events : List event

/-- What the generic alloc-pd command hands back. -/
structure alloc_pd_reply where
  ret : Int
  ibv : ibv_pd
  resp : cxi_alloc_pd_resp

/-- Outcome of `cxi_alloc_pd`. -/
structure alloc_pd_result where
  pd : Option cxi_pd
  events : List event

/-- Function `cxi_alloc_pd`. -/
def cxi_alloc_pd (calloc_ok : Bool) (ibv_cmd_alloc_pd : ibv_context → alloc_pd_reply)
    (context : ibv_context) : alloc_pd_result :=
  if !calloc_ok then ⟨none, []⟩
  else
    let pd : cxi_pd := {}
    let reply := ibv_cmd_alloc_pd context
    if reply.ret ≠ 0 then ⟨none, [.calloc .pd, .cmd .alloc_pd, .free .pd]⟩
    else
      let pd := { pd with ibvpd := reply.ibv }
      let pd := { pd with pdn := reply.resp.pdn % 2 ^ 16 }
      ⟨some pd, [.calloc .pd, .cmd .alloc_pd]⟩

/-- Function `cxi_dealloc_pd`. -/
def cxi_dealloc_pd (ibv_cmd_dealloc_pd : ibv_pd → Int) (pd : cxi_pd) : destroy_result cxi_pd :=
  let ret := ibv_cmd_dealloc_pd pd.ibvpd
  if ret ≠ 0 then ⟨ret, some pd, [.cmd (.dealloc_pd pd.ibvpd.handle)]⟩
  else ⟨0, none, [.cmd (.dealloc_pd pd.ibvpd.handle), .free .pd]⟩

/-- What the generic reg-mr command hands back. -/
structure reg_mr_reply where
  ret : Int
  ibv : ibv_mr
  resp : cxi_reg_mr_resp

/-- Outcome of `cxi_reg_mr`. -/
structure reg_mr_result where
  mr : Option cxi_mr
  events : List event

/-- The vendor command that `cxi_reg_mr` builds; `access` is the bit pattern
of the `int` argument. -/
def reg_mr_cmd (addr length access : Nat) : cxi_reg_mr_cmd :=
  let cmd : cxi_reg_mr_cmd := {}
  let cmd := { cmd with start := addr % 2 ^ 64 }
  let cmd := { cmd with length := length % 2 ^ 64 }
  let cmd := { cmd with virt_addr := addr % 2 ^ 64 }
  let cmd := { cmd with access_flags := access % 2 ^ 32 }
  cmd

/-- Function `cxi_reg_mr`. -/
def cxi_reg_mr (calloc_ok : Bool) (ibv_cmd_reg_mr : cxi_reg_mr_cmd → reg_mr_reply)
    (_pd : cxi_pd) (addr length access : Nat) : reg_mr_result :=
  if !calloc_ok then ⟨none, []⟩
  else
    let mr : cxi_mr := {}
    let cmd := reg_mr_cmd addr length access
    let reply := ibv_cmd_reg_mr cmd
    if reply.ret ≠ 0 then ⟨none, [.calloc .mr, .cmd (.reg_mr cmd), .free .mr]⟩
    else
      let mr := { mr with verbs_mr := reply.ibv }
      let mr := { mr with md_handle := reply.resp.l_key % 2 ^ 32 }
      ⟨some mr, [.calloc .mr, .cmd (.reg_mr cmd)]⟩

/-- Function `cxi_dereg_mr`. -/
def cxi_dereg_mr (ibv_cmd_dereg_mr : ibv_mr → Int) (vmr : cxi_mr) : destroy_result cxi_mr :=
  let ret := ibv_cmd_dereg_mr vmr.verbs_mr
  if ret ≠ 0 then ⟨ret, some vmr, [.cmd (.dereg_mr vmr.verbs_mr.handle)]⟩
  else ⟨0, none, [.cmd (.dereg_mr vmr.verbs_mr.handle), .free .mr]⟩

/-- What the generic create-cq commands hand back. -/
structure create_cq_reply where
  ret : Int
  ibv : ibv_cq
  resp : cxi_create_cq_resp

/-- Outcome of `cxi_create_cq` / `cxi_create_cq_ex`. -/
structure create_cq_result where
  cq : Option cxi_cq
  events : List event

/-- The vendor command that `cxi_create_cq` builds; the `int` arguments are
converted to the unsigned members of the command. -/
def create_cq_cmd (cqe : Int) (comp_vector : Int) : cxi_create_cq_cmd :=
  let cmd : cxi_create_cq_cmd := {}
  let cmd := { cmd with cq_depth := (cqe % 2 ^ 32).toNat }
  let cmd := { cmd with eqn := (comp_vector % 2 ^ 16).toNat }
  cmd

/-- Function `cxi_create_cq`. -/
def cxi_create_cq (calloc_ok : Bool) (ibv_cmd_create_cq : cxi_create_cq_cmd → create_cq_reply)
    (cqe : Int) (comp_vector : Int) : create_cq_result :=
  if !calloc_ok then ⟨none, []⟩
  else
    let cq : cxi_cq := {}
    let cmd := create_cq_cmd cqe comp_vector
    let reply := ibv_cmd_create_cq cmd
    if reply.ret ≠ 0 then ⟨none, [.calloc .cq, .cmd (.create_cq cmd), .free .cq]⟩
    else
      let cq := { cq with verbs_cq := reply.ibv }
      let cq := { cq with cq_idx := reply.resp.cq_idx % 2 ^ 16 }
      let cq := { cq with cqn := reply.resp.cq_idx % 2 ^ 16 }
      let cq := { cq with cqe_size := 64 }
      let cq := { cq with lock := true }
      ⟨some cq, [.calloc .cq, .cmd (.create_cq cmd), .spin_init "lock"]⟩

/-- The vendor command that `cxi_create_cq_ex` builds. -/
def create_cq_ex_cmd (cq_attr : ibv_cq_init_attr_ex) : cxi_create_cq_cmd :=
  let cmd : cxi_create_cq_cmd := {}
  let cmd := { cmd with cq_depth := cq_attr.cqe % 2 ^ 32 }
  let cmd := { cmd with eqn := cq_attr.comp_vector % 2 ^ 16 }
  cmd

/-- Function `cxi_create_cq_ex`. -/
def cxi_create_cq_ex (calloc_ok : Bool)
    (ibv_cmd_create_cq_ex : cxi_create_cq_cmd → create_cq_reply)
    (cq_attr : ibv_cq_init_attr_ex) : create_cq_result :=
  if !calloc_ok then ⟨none, []⟩
  else
    let cq : cxi_cq := {}
    let cmd := create_cq_ex_cmd cq_attr
    let reply := ibv_cmd_create_cq_ex cmd
    if reply.ret ≠ 0 then ⟨none, [.calloc .cq, .cmd (.create_cq_ex cmd), .free .cq]⟩
    else
      let cq := { cq with verbs_cq := reply.ibv }
      let cq := { cq with cq_idx := reply.resp.cq_idx % 2 ^ 16 }
      let cq := { cq with cqn := reply.resp.cq_idx % 2 ^ 16 }
      let cq := { cq with cqe_size := 64 }
      let cq := { cq with lock := true }
      ⟨some cq, [.calloc .cq, .cmd (.create_cq_ex cmd), .spin_init "lock"]⟩

/-- Function `cxi_destroy_cq`. -/
def cxi_destroy_cq (ibv_cmd_destroy_cq : ibv_cq → Int) (cq : cxi_cq) : destroy_result cxi_cq :=
  let ret := ibv_cmd_destroy_cq cq.verbs_cq
  if ret ≠ 0 then ⟨ret, some cq, [.cmd (.destroy_cq cq.verbs_cq.handle)]⟩
  else ⟨0, none, [.cmd (.destroy_cq cq.verbs_cq.handle), .spin_destroy "lock", .free .cq]⟩

/-- Outcome of `cxi_poll_cq`: the return value, the completion queue
afterwards and the caller's array of completion records afterwards. -/
structure poll_result (WC : Type) where
  ret : Int
  cq : cxi_cq
  wc : List WC

/-- Function `cxi_poll_cq`. -/
def cxi_poll_cq {WC : Type} (cq : cxi_cq) (_ne : Int) (wc : List WC) : poll_result WC :=
  { ret := 0, cq := cq, wc := wc }

/-- Function `cxi_destroy_qp`. -/
def cxi_destroy_qp (ibv_cmd_destroy_qp : ibv_qp → Int) (qp : cxi_qp) : destroy_result cxi_qp :=
  let ret := ibv_cmd_destroy_qp qp.verbs_qp
  if ret ≠ 0 then ⟨ret, some qp, [.cmd (.destroy_qp qp.verbs_qp.handle)]⟩
  else
    ⟨0, none, [.cmd (.destroy_qp qp.verbs_qp.handle), .spin_destroy "sq_lock",
      .spin_destroy "rq_lock", .free .qp]⟩

/-- What the generic query-qp command hands back: its return value and the
attributes it wrote for the caller. -/
structure query_qp_reply where
  ret : Int
  attr : ibv_qp_attr
  init_attr : ibv_qp_init_attr

/-- Outcome of `cxi_query_qp`: the return value, the attributes written for
the caller, the queue pair afterwards and the effects performed. -/
structure query_qp_result where
  ret : Int
  attr : ibv_qp_attr
  init_attr : ibv_qp_init_attr
  qp : cxi_qp
  events : List event

/-- Function `cxi_query_qp`. -/
def cxi_query_qp (ibv_cmd_query_qp : ibv_qp → Nat → query_qp_reply) (qp : cxi_qp)
    (attr_mask : Nat) : query_qp_result :=
  let reply := ibv_cmd_query_qp qp.verbs_qp attr_mask
  ⟨reply.ret, reply.attr, reply.init_attr, qp, [.cmd (.query_qp qp.verbs_qp.handle attr_mask)]⟩

/-- What the generic create-ah command hands back. -/
structure create_ah_reply where
  ret : Int
  ibv : ibv_ah

/-- Outcome of `cxi_create_ah`. -/
structure create_ah_result where
  ah : Option cxi_ah
  events : List event

/-- Function `cxi_create_ah`; no vendor response is attached to the command. -/
def cxi_create_ah (calloc_ok : Bool) (ibv_cmd_create_ah : ibv_ah_attr → create_ah_reply)
    (_pd : cxi_pd) (attr : ibv_ah_attr) : create_ah_result :=
  if !calloc_ok then ⟨none, []⟩
  else
    let ah : cxi_ah := {}
    let reply := ibv_cmd_create_ah attr
    if reply.ret ≠ 0 then ⟨none, [.calloc .ah, .cmd (.create_ah attr), .free .ah]⟩
    else
      let ah := { ah with ibvah := reply.ibv }
      let ah := { ah with ahn := 0 }
      ⟨some ah, [.calloc .ah, .cmd (.create_ah attr)]⟩

/-- Function `cxi_destroy_ah`. -/
def cxi_destroy_ah (ibv_cmd_destroy_ah : ibv_ah → Int) (ah : cxi_ah) : destroy_result cxi_ah :=
  let ret := ibv_cmd_destroy_ah ah.ibvah
  if ret ≠ 0 then ⟨ret, some ah, [.cmd (.destroy_ah ah.ibvah.handle)]⟩
  else ⟨0, none, [.cmd (.destroy_ah ah.ibvah.handle), .free .ah]⟩

/-- The resource records that are allocated once the effects `es` have
happened, starting from the records `live`. -/
def live_records (live : List resource) : List event → List resource
  | [] => live
  | .calloc r :: es => live_records (r :: live) es
  | .free r :: es => live_records (live.erase r) es
  | _ :: es => live_records live es

/-- Number of positions at which the caller's array of completion records
differs after the call from what it held before. -/
def records_written {WC : Type} [DecidableEq WC] (before after : List WC) : Nat :=
  (List.zip before after).countP fun p => decide (p.1 ≠ p.2)

/-! ## Callers: create-then-destroy cycles -/

/-- The caller's arguments and the kernel's answers during one
create-then-destroy cycle. -/
structure cycle_env where
  calloc_ok : Bool
  context : ibv_context
  pd : cxi_pd
  addr : Nat
  length : Nat
  access : Nat
  cqe : Int
  comp_vector : Int
  cq_attr : ibv_cq_init_attr_ex
  qp_attr : ibv_qp_init_attr
  ah_attr : ibv_ah_attr
  alloc_pd : ibv_context → alloc_pd_reply
  dealloc_pd : ibv_pd → Int
  reg_mr : cxi_reg_mr_cmd → reg_mr_reply
  dereg_mr : ibv_mr → Int
  create_cq : cxi_create_cq_cmd → create_cq_reply
  destroy_cq : ibv_cq → Int
  create_qp : cxi_create_qp_cmd → create_qp_reply
  destroy_qp : ibv_qp → Int
  create_ah : ibv_ah_attr → create_ah_reply
  destroy_ah : ibv_ah → Int

/-- Allocation and every transport call of the cycle succeed. -/
def cycle_env.ok (e : cycle_env) : Prop :=
  e.calloc_ok = true ∧
  (∀ c, (e.alloc_pd c).ret = 0) ∧ (∀ x, e.dealloc_pd x = 0) ∧
  (∀ c, (e.reg_mr c).ret = 0) ∧ (∀ x, e.dereg_mr x = 0) ∧
  (∀ c, (e.create_cq c).ret = 0) ∧ (∀ x, e.destroy_cq x = 0) ∧
  (∀ c, (e.create_qp c).ret = 0) ∧ (∀ x, e.destroy_qp x = 0) ∧
  (∀ c, (e.create_ah c).ret = 0) ∧ (∀ x, e.destroy_ah x = 0)

/-- The effects of one cycle: the resource of the given kind is created (by
the `_ex` entry point when `ex` is set and the kind has one) and, when the
creation returned a record, destroyed at once. -/
def cycle (e : cycle_env) (ex : Bool) : resource → List event
  | .context => []
  | .pd =>
    let c := cxi_alloc_pd e.calloc_ok e.alloc_pd e.context
    match c.pd with
    | none => c.events
    | some pd => c.events ++ (cxi_dealloc_pd e.dealloc_pd pd).events
  | .mr =>
    let c := cxi_reg_mr e.calloc_ok e.reg_mr e.pd e.addr e.length e.access
    match c.mr with
    | none => c.events
    | some mr => c.events ++ (cxi_dereg_mr e.dereg_mr mr).events
  | .cq =>
    let c := if ex then cxi_create_cq_ex e.calloc_ok e.create_cq e.cq_attr
      else cxi_create_cq e.calloc_ok e.create_cq e.cqe e.comp_vector
    match c.cq with
    | none => c.events
    | some cq => c.events ++ (cxi_destroy_cq e.destroy_cq cq).events
  | .qp =>
    let c := if ex then cxi_create_qp_ex e.calloc_ok e.create_qp e.qp_attr
      else cxi_create_qp e.calloc_ok e.create_qp e.qp_attr
    match c.qp with
    | none => c.events
    | some qp => c.events ++ (cxi_destroy_qp e.destroy_qp qp).events
  | .ah =>
    let c := cxi_create_ah e.calloc_ok e.create_ah e.pd e.ah_attr
    match c.ah with
    | none => c.events
    | some ah => c.events ++ (cxi_destroy_ah e.destroy_ah ah).events

/-- Consecutive cycles, one per element of the list, on a device context;
gives the context afterwards and the effects in order.  No entry point of a
cycle writes to the context. -/
def cycles (ctx : cxi_context) (ex : Bool) (kind : resource) :
    List cycle_env → cxi_context × List event
  | [] => (ctx, [])
  | e :: es =>
    let r := cycles ctx ex kind es
    (r.1, cycle e ex kind ++ r.2)

/-- The transport commands among a list of effects, in order. -/
def transport_cmds : List event → List uverbs_cmd
  | [] => []
  | .cmd c :: es => c :: transport_cmds es
  | _ :: es => transport_cmds es

/-- Commands that ask the kernel to create a resource. -/
def uverbs_cmd.is_create : uverbs_cmd → Bool
  | .get_context _ => true
  | .alloc_pd => true
  | .reg_mr _ => true
  | .create_cq _ => true
  | .create_cq_ex _ => true
  | .create_qp _ => true
  | .create_qp_ex _ => true
  | .create_ah _ => true
  | _ => false

/-- Commands that ask the kernel to destroy a resource. -/
def uverbs_cmd.is_destroy : uverbs_cmd → Bool
  | .dealloc_pd _ => true
  | .dereg_mr _ => true
  | .destroy_cq _ => true
  | .destroy_qp _ => true
  | .destroy_ah _ => true
  | _ => false

/-- The create command of a cycle followed by the destroy command that names
the kernel handle returned for that creation. -/
def cycle_cmds (e : cycle_env) (ex : Bool) : resource → List uverbs_cmd
  | .context => []
  | .pd => [.alloc_pd, .dealloc_pd (e.alloc_pd e.context).ibv.handle]
  | .mr =>
    [.reg_mr (reg_mr_cmd e.addr e.length e.access),
     .dereg_mr (e.reg_mr (reg_mr_cmd e.addr e.length e.access)).ibv.handle]
  | .cq =>
    if ex then
      [.create_cq_ex (create_cq_ex_cmd e.cq_attr),
       .destroy_cq (e.create_cq (create_cq_ex_cmd e.cq_attr)).ibv.handle]
    else
      [.create_cq (create_cq_cmd e.cqe e.comp_vector),
       .destroy_cq (e.create_cq (create_cq_cmd e.cqe e.comp_vector)).ibv.handle]
  | .qp =>
    if ex then
      [.create_qp_ex (create_qp_cmd e.qp_attr),
       .destroy_qp (e.create_qp (create_qp_cmd e.qp_attr)).ibv.handle]
    else
      [.create_qp (create_qp_cmd e.qp_attr),
       .destroy_qp (e.create_qp (create_qp_cmd e.qp_attr)).ibv.handle]
  | .ah => [.create_ah e.ah_attr, .destroy_ah (e.create_ah e.ah_attr).ibv.handle]

/-- The commands of consecutive cycles. -/
def cycles_cmds (ex : Bool) (kind : resource) : List cycle_env → List uverbs_cmd
  | [] => []
  | e :: es => cycle_cmds e ex kind ++ cycles_cmds ex kind es

/-! ## Callers: entry points applied to one queue pair -/

/-- A queue pair together with its send and receive completion queues. -/
structure qp_world where
  qp : cxi_qp
  send_cq : cxi_cq
  recv_cq : cxi_cq

/-- One entry-point call on a queue pair or on one of its completion queues,
with the caller's arguments and the transport that serves it. -/
inductive qp_call (WR WC : Type) where
  | post_send (wr : List WR)
  | post_recv (wr : List WR)
  | modify_qp (IBV_QP_STATE : Nat) (ibv_cmd_modify_qp : ibv_qp → ibv_qp_attr → Nat → Int)
      (attr : ibv_qp_attr) (attr_mask : Nat)
  | query_qp (ibv_cmd_query_qp : ibv_qp → Nat → query_qp_reply) (attr_mask : Nat)
  | poll_send_cq (ne : Int) (wc : List WC)
  | poll_recv_cq (ne : Int) (wc : List WC)

/-- The records after one call. -/
def qp_world.step {WR WC : Type} (w : qp_world) : qp_call WR WC → qp_world
  | .post_send wr => { w with qp := (cxi_post_send w.qp wr).qp }
  | .post_recv wr => { w with qp := (cxi_post_recv w.qp wr).qp }
  | .modify_qp b k attr m => { w with qp := (cxi_modify_qp b k w.qp attr m).qp }
  | .query_qp k m => { w with qp := (cxi_query_qp k w.qp m).qp }
  | .poll_send_cq ne wc => { w with send_cq := (cxi_poll_cq w.send_cq ne wc).cq }
  | .poll_recv_cq ne wc => { w with recv_cq := (cxi_poll_cq w.recv_cq ne wc).cq }

/-- The records after a sequence of calls. -/
def qp_world.run {WR WC : Type} (w : qp_world) : List (qp_call WR WC) → qp_world
  | [] => w
  | c :: cs => (w.step c).run cs

/-! ## Generic device query (verbs.c) -/

/-- Modelled from the spec: the device attributes `struct ibv_device_attr`
(member `orig_attr` of `struct ibv_device_attr_ex`), declared by the generic
verbs header (not under src/); kept are the two `int` members that the
provider adjusts and two that it leaves alone. -/
structure ibv_device_attr where
  max_qp : Int := 0
  max_qp_wr : Int := 0
  max_sge : Int := 0
  max_cqe : Int := 0
  deriving DecidableEq, Repr

/-- Conversion of an unsigned value to `int`: the value modulo 2^32 read
in two's complement. -/
def to_int (v : Nat) : Int :=
  if v % 2 ^ 32 < 2 ^ 31 then ((v % 2 ^ 32 : Nat) : Int)
  else ((v % 2 ^ 32 : Nat) : Int) - 2 ^ 32

/-- Modelled from the spec: the macro `min_t(int, a, b)` of ccan/minmax.h
(not under src/), applied to unsigned `b`: both arguments are taken as `int`
and the smaller one is the result. -/
def min_t_int (a : Int) (b : Nat) : Int :=
  let ta := a
  let tb := to_int b
  if ta < tb then ta else tb

/-- What the generic query command hands back: its return value and the
caller's attribute structure as the generic layer leaves it. -/
structure query_device_reply where
  ret : Int
  attr : ibv_device_attr

/-- Outcome of `cxi_query_device_ex`: the return value, the caller's attribute
structure afterwards and the effects performed. -/
structure query_device_ex_result where
  ret : Int
  attr : ibv_device_attr
  events : List event

/-- Function `cxi_query_device_ex`; `ibv_cmd_query_device_any` is the generic
command transport, applied to the caller's attribute structure. -/
def cxi_query_device_ex (ibv_cmd_query_device_any : ibv_device_attr → query_device_reply)
    (ctx : cxi_context) (attr : ibv_device_attr) : query_device_ex_result :=
  let reply := ibv_cmd_query_device_any attr
  if reply.ret ≠ 0 then ⟨reply.ret, reply.attr, [.cmd .query_device]⟩
  else
    let a := reply.attr
    let a := { a with max_qp_wr := min_t_int a.max_qp_wr (ctx.max_sq_wr % 2 ^ 32) }
    let a := { a with max_sge := min_t_int a.max_sge (ctx.max_sq_sge % 2 ^ 16) }
    ⟨0, a, [.cmd .query_device]⟩

/-! ## Concrete inputs used to instantiate the theorems -/

/-- A kernel that accepts every vendor method request and returns, for the
attribute with identifier `id`, the value `id % 256 + 1`. -/
def sample_kernel : ioctl_cmd → ioctl_reply := fun _ => ⟨0, fun id => id % 256 + 1⟩

/-- A kernel that rejects every vendor method request with error code 5. -/
def sample_kernel_fail : ioctl_cmd → ioctl_reply := fun _ => ⟨5, fun _ => 0⟩

/-- A caller buffer whose every byte is 0xAA before the call. -/
def sample_buf : Mem := fun _ => 170

/-- A context with non-trivial cached capabilities. -/
def sample_ctx : cxi_context :=
  { device_caps := 7, max_sq_wr := 1024, max_rq_wr := 512, max_sq_sge := 4,
    max_rq_sge := 2, max_rdma_size := 65536 }

/-- A generic create command that succeeds with handle 9 and queue-pair
number 17. -/
def sample_create : cxi_create_qp_cmd → create_qp_reply := fun _ =>
  ⟨0, { handle := 9, qp_num := 17 },
    { qp_handle := 3, qp_num := 17, sq_db_offset := 4096, rq_db_offset := 8192 }⟩

/-- The queue pair that `cxi_create_qp` returns for `sample_create`. -/
def sample_qp : cxi_qp :=
  { verbs_qp := { handle := 9, qp_num := 17 }, qp_handle := 3, qp_num := 17,
    sq_db_offset := 4096, rq_db_offset := 8192, state := IBV_QPS_RESET,
    sq_lock := true, rq_lock := true }

/-- A generic modify command that always succeeds. -/
def sample_modify_ok : ibv_qp → ibv_qp_attr → Nat → Int := fun _ _ _ => 0

/-- A generic modify command that always fails with error code 22. -/
def sample_modify_fail : ibv_qp → ibv_qp_attr → Nat → Int := fun _ _ _ => 22

/-- A generic destroy command that always fails with error code 16. -/
def sample_destroy_fail {R : Type} : R → Int := fun _ => 16

/-- A generic destroy command that always succeeds. -/
def sample_destroy_ok {R : Type} : R → Int := fun _ => 0

/-- A protection domain with kernel handle 5 and number 11. -/
def sample_pd : cxi_pd := { ibvpd := { handle := 5 }, pdn := 11 }

/-- A memory region with kernel handle 6. -/
def sample_mr : cxi_mr := { verbs_mr := { handle := 6, lkey := 70, rkey := 71 }, md_handle := 70 }

/-- A completion queue with kernel handle 7 and index 2. -/
def sample_cq : cxi_cq :=
  { verbs_cq := { handle := 7, cqe := 16 }, cqn := 2, cq_idx := 2, cqe_size := 64, lock := true }

/-- An address handle with kernel handle 8. -/
def sample_ah : cxi_ah := { ibvah := { handle := 8 } }

/-- A generic create command for queue pairs that fails with error code 12. -/
def sample_create_fail : cxi_create_qp_cmd → create_qp_reply := fun _ => ⟨12, {}, {}⟩

/-- A generic get-context command that succeeds with region number 3. -/
def sample_get_context : cxi_ibv_alloc_ucontext_cmd → get_context_reply := fun _ =>
  ⟨0, { uarn := 3 }⟩

/-- A generic create command for completion queues that succeeds with handle
7, index 2, granted depth 16 and doorbell offset 4096. -/
def sample_create_cq : cxi_create_cq_cmd → create_cq_reply := fun _ =>
  ⟨0, { handle := 7, cqe := 16 }, { cq_idx := 2, actual_depth := 16, db_off := 4096 }⟩

/-- The same reply as `sample_create_cq` except for the granted depth (32)
and the doorbell offset (8192). -/
def sample_create_cq_other : cxi_create_cq_cmd → create_cq_reply := fun _ =>
  ⟨0, { handle := 7, cqe := 16 }, { cq_idx := 2, actual_depth := 32, db_off := 8192 }⟩

/-- A cycle in which every call succeeds; the kernel hands out handle 5 for
protection domains, 6 for memory regions, 7 for completion queues, 9 for queue
pairs and 8 for address handles. -/
def sample_env : cycle_env :=
  { calloc_ok := true, context := {}, pd := sample_pd, addr := 4096, length := 4096,
    access := 1, cqe := 16, comp_vector := 0, cq_attr := { cqe := 16 },
    qp_attr := { cap := { max_send_wr := 16, max_recv_wr := 16 } }, ah_attr := {},
    alloc_pd := fun _ => ⟨0, { handle := 5 }, { pdn := 11 }⟩,
    dealloc_pd := fun _ => 0,
    reg_mr := fun _ => ⟨0, { handle := 6, lkey := 70, rkey := 71 }, { l_key := 70, r_key := 71 }⟩,
    dereg_mr := fun _ => 0,
    create_cq := sample_create_cq,
    destroy_cq := fun _ => 0,
    create_qp := sample_create,
    destroy_qp := fun _ => 0,
    create_ah := fun _ => ⟨0, { handle := 8 }⟩,
    destroy_ah := fun _ => 0 }

/-- A generic query command that succeeds and reports state RTS. -/
def sample_query : ibv_qp → Nat → query_qp_reply := fun _ _ => ⟨0, ⟨.IBV_QPS_RTS⟩, {}⟩

/-- A generic device query that succeeds and reports 16384 work requests
and 32 scatter-gather entries. -/
def sample_query_device : ibv_device_attr → query_device_reply := fun _ =>
  ⟨0, { max_qp := 1024, max_qp_wr := 16384, max_sge := 32, max_cqe := 65536 }⟩

/-- A generic device query that fails with error code 5 and leaves the
caller's structure as it was. -/
def sample_query_device_fail : ibv_device_attr → query_device_reply := fun a => ⟨5, a⟩

/-- A context whose cached send depth has its top bit set. -/
def sample_ctx_wide : cxi_context := { max_sq_wr := 4294967295, max_sq_sge := 65535 }

/-! ## Memory lemmas -/

theorem store_le_apply (n : Nat) : ∀ (m : Mem) (a v i : Nat),
    store_le m a n v i = if a ≤ i ∧ i < a + n then v / 256 ^ (i - a) % 256 else m i := by
  induction n with
  | zero =>
    intro m a v i
    have h : ¬ (a ≤ i ∧ i < a) := by omega
    simp [store_le, h]
  | succ n ih =>
    intro m a v i
    rw [store_le, ih]
    by_cases h1 : a + 1 ≤ i ∧ i < a + 1 + n
    · have h2 : a ≤ i ∧ i < a + (n + 1) := by omega
      have h3 : i - a = (i - (a + 1)) + 1 := by omega
      rw [if_pos h1, if_pos h2, h3, pow_succ, Nat.div_div_eq_div_mul, Nat.mul_comm]
    · rw [if_neg h1]
      by_cases h4 : i = a
      · subst h4
        have h2 : i ≤ i ∧ i < i + (n + 1) := by omega
        simp [h2]
      · have h2 : ¬ (a ≤ i ∧ i < a + (n + 1)) := by omega
        simp [h2, h4]

theorem store_le_outside (m : Mem) (a n v i : Nat) (h : i < a ∨ a + n ≤ i) :
    store_le m a n v i = m i := by
  rw [store_le_apply]
  have h2 : ¬ (a ≤ i ∧ i < a + n) := by omega
  simp [h2]

theorem store_le_zero (m : Mem) (a n i : Nat) :
    store_le m a n 0 i = if a ≤ i ∧ i < a + n then 0 else m i := by
  rw [store_le_apply]
  simp

theorem load_le_congr (n : Nat) : ∀ (m m' : Mem) (a : Nat),
    (∀ i, a ≤ i → i < a + n → m i = m' i) → load_le m a n = load_le m' a n := by
  induction n with
  | zero => intro m m' a _; rfl
  | succ n ih =>
    intro m m' a h
    simp only [load_le]
    rw [h a (Nat.le_refl a) (by omega), ih m m' (a + 1) (fun i h1 h2 => h i (by omega) (by omega))]

theorem load_store_same (n : Nat) : ∀ (m : Mem) (a v : Nat),
    load_le (store_le m a n v) a n = v % 256 ^ n := by
  induction n with
  | zero => intro m a v; simp [load_le, Nat.mod_one]
  | succ n ih =>
    intro m a v
    simp only [load_le, store_le]
    rw [ih, store_le_outside _ _ _ _ _ (Or.inl (Nat.lt_succ_self a))]
    simp only [if_true]
    rw [pow_succ, Nat.mul_comm (256 ^ n) 256, Nat.mod_mul]

theorem load_store_disjoint (m : Mem) (a n b k v : Nat) (h : b + k ≤ a ∨ a + n ≤ b) :
    load_le (store_le m b k v) a n = load_le m a n := by
  apply load_le_congr
  intro i h1 h2
  exact store_le_outside m b k v i (by omega)

theorem load_field_store_same (s : cstruct) (f : String) (m : Mem) (v : Nat) :
    load_field s f (store_field s f m v) = v % 256 ^ field_size s f :=
  load_store_same _ _ _ _

theorem load_field_store_other (s : cstruct) (f g : String) (m : Mem) (v : Nat)
    (h : offsetof s g + field_size s g ≤ offsetof s f ∨
      offsetof s f + field_size s f ≤ offsetof s g) :
    load_field s f (store_field s g m v) = load_field s f m :=
  load_store_disjoint _ _ _ _ _ _ h

theorem store_field_outside (s : cstruct) (g : String) (m : Mem) (v i : Nat)
    (h : ¬ in_field s g i) : store_field s g m v i = m i := by
  apply store_le_outside
  unfold in_field at h
  omega

theorem mod_field_size (s : cstruct) (f : String) (v k : Nat) (hs : field_size s f = k)
    (hv : v < 256 ^ k) : v % 256 ^ field_size s f = v := by
  rw [hs]; exact Nat.mod_eq_of_lt hv

theorem store_zero_memset (s : cstruct) (f : String) (buf : Mem) (n i : Nat) (h : i < n) :
    store_field s f (memset buf 0 n) 0 i = 0 := by
  simp [store_field, store_le_zero, memset, h]

theorem u32_lt (v : Nat) : v % 2 ^ 32 < 256 ^ 4 := by
  have h : (256 : Nat) ^ 4 = 2 ^ 32 := by norm_num
  rw [h]; exact Nat.mod_lt _ (by norm_num)

theorem u64_lt (v : Nat) : v % 2 ^ 64 < 256 ^ 8 := by
  have h : (256 : Nat) ^ 8 = 2 ^ 64 := by norm_num
  rw [h]; exact Nat.mod_lt _ (by norm_num)

/-! ## Field availability -/

/-- C6: every member of the four direct-verbs attribute structures is reported
unavailable by `CXIDV_FIELD_AVAIL` for `inlen = 0` and available for
`inlen = sizeof(type)`. -/
theorem field_avail_zero_and_sizeof :
    ∀ s ∈ cxidv_attr_structs, ∀ f ∈ s,
      CXIDV_FIELD_AVAIL s f.name 0 = false ∧ CXIDV_FIELD_AVAIL s f.name (sizeof s) = true := by
  decide

/-- C6 at `access_flags` of `struct cxidv_method2_attr`. -/
theorem field_avail_zero_and_sizeof_witness :
    CXIDV_FIELD_AVAIL cxidv_method2_attr "access_flags" 0 = false ∧
    CXIDV_FIELD_AVAIL cxidv_method2_attr "access_flags" 40 = true :=
  field_avail_zero_and_sizeof cxidv_method2_attr (by decide) ⟨"access_flags", .u32⟩ (by decide)

/-! ## Validation failures -/

/-- C1: each of the four direct-verbs queries, called with a NULL buffer or
with `inlen` below the size of its attribute structure, returns `EINVAL`,
submits no transport request (performs no effect at all) and leaves the
caller's buffer as it was. -/
theorem dv_validation_failure (ctx : cxi_context) (execute_ioctl : ioctl_cmd → ioctl_reply)
    (mr : ibv_mr) (qp : ibv_qp) (attr : Option Mem) (inlen : Nat) :
    ((attr = none ∨ inlen < sizeof cxidv_device_attr) →
      cxidv_query_device ctx attr inlen = ⟨EINVAL, attr, []⟩) ∧
    ((attr = none ∨ inlen < sizeof cxidv_method1_attr) →
      cxidv_method1 execute_ioctl attr inlen = ⟨EINVAL, attr, []⟩) ∧
    ((attr = none ∨ inlen < sizeof cxidv_method2_attr) →
      cxidv_method2 execute_ioctl mr attr inlen = ⟨EINVAL, attr, []⟩) ∧
    ((attr = none ∨ inlen < sizeof cxidv_method3_attr) →
      cxidv_method3 execute_ioctl qp attr inlen = ⟨EINVAL, attr, []⟩) := by
  refine ⟨?_, ?_, ?_, ?_⟩ <;> intro h <;> cases attr with
    | none => rfl
    | some buf =>
      have h1 := h.resolve_left (by simp)
      simp [cxidv_query_device, cxidv_method1, cxidv_method2, cxidv_method3, h1]

/-- C1 at concrete calls: a NULL buffer for `cxidv_query_device` and
`cxidv_method3`, a 31-byte buffer for `cxidv_method1` and a 24-byte buffer for
`cxidv_method2`. -/
theorem dv_validation_failure_witness :
    cxidv_query_device sample_ctx none 64 = ⟨EINVAL, none, []⟩ ∧
    cxidv_method1 sample_kernel (some sample_buf) 31 = ⟨EINVAL, some sample_buf, []⟩ ∧
    cxidv_method2 sample_kernel {} (some sample_buf) 24 = ⟨EINVAL, some sample_buf, []⟩ ∧
    cxidv_method3 sample_kernel {} none 64 = ⟨EINVAL, none, []⟩ :=
  ⟨(dv_validation_failure sample_ctx sample_kernel {} {} none 64).1 (Or.inl rfl),
   (dv_validation_failure sample_ctx sample_kernel {} {} (some sample_buf) 31).2.1
     (Or.inr (by decide)),
   (dv_validation_failure sample_ctx sample_kernel {} {} (some sample_buf) 24).2.2.1
     (Or.inr (by decide)),
   (dv_validation_failure sample_ctx sample_kernel {} {} none 64).2.2.2 (Or.inl rfl)⟩

/-! ## Truncated buffer for `cxidv_method2` -/

/-- C2 fails on the code: with a 0xAA-filled buffer, an accepting kernel and
`inlen = offsetof(struct cxidv_method2_attr, length)`, `cxidv_method2` does not
return 0. -/
theorem method2_truncated_counterexample :
    (cxidv_method2 sample_kernel {} (some sample_buf)
      (offsetof cxidv_method2_attr "length")).ret ≠ 0 := by
  decide

/-- C2 as amended: for every memory region, kernel and buffer, `cxidv_method2`
called with `inlen = offsetof(struct cxidv_method2_attr, length)` returns
`EINVAL`, submits no transport request and leaves every byte of the buffer as
it was; in particular no byte at or beyond `inlen` is written and
`access_flags` keeps its pre-call value. -/
theorem method2_truncated_rejected (execute_ioctl : ioctl_cmd → ioctl_reply) (mr : ibv_mr)
    (buf : Mem) :
    ∃ out : Mem,
      cxidv_method2 execute_ioctl mr (some buf) (offsetof cxidv_method2_attr "length") =
        ⟨EINVAL, some out, []⟩ ∧
      (∀ i, out i = buf i) ∧
      load_field cxidv_method2_attr "access_flags" out =
        load_field cxidv_method2_attr "access_flags" buf := by
  refine ⟨buf, ?_, fun _ => rfl, rfl⟩
  have h : offsetof cxidv_method2_attr "length" < sizeof cxidv_method2_attr := by decide
  simp [cxidv_method2, h]

/-! ## Successful queries -/

/-- C3: for each of `cxidv_method1`, `cxidv_method2` and `cxidv_method3`, with
a non-NULL buffer, `inlen` at least the size of the attribute structure and a
successful transport reply, the call returns 0 after one request and, whatever
the buffer held before, every named output member holds the value the kernel
returned for its attribute while every other byte below `inlen` (comp_mask,
padding, the reserved array, the bytes past the structure) is zero. -/
theorem dv_method_success (execute_ioctl : ioctl_cmd → ioctl_reply) (mr : ibv_mr)
    (qp : ibv_qp) (buf : Mem) (inlen : Nat) :
    (sizeof cxidv_method1_attr ≤ inlen → (execute_ioctl method1_cmd).ret = 0 →
      ∃ out : Mem,
        cxidv_method1 execute_ioctl (some buf) inlen = ⟨0, some out, [.ioctl method1_cmd]⟩ ∧
        load_field cxidv_method1_attr "nic_addr" out =
          (execute_ioctl method1_cmd).out CXI_IB_ATTR_METHOD1_RESP_NIC_ADDR % 2 ^ 32 ∧
        load_field cxidv_method1_attr "pid_granule" out =
          (execute_ioctl method1_cmd).out CXI_IB_ATTR_METHOD1_RESP_PID_GRANULE % 2 ^ 32 ∧
        load_field cxidv_method1_attr "pid_count" out =
          (execute_ioctl method1_cmd).out CXI_IB_ATTR_METHOD1_RESP_PID_COUNT % 2 ^ 32 ∧
        load_field cxidv_method1_attr "pid_bits" out =
          (execute_ioctl method1_cmd).out CXI_IB_ATTR_METHOD1_RESP_PID_BITS % 2 ^ 32 ∧
        load_field cxidv_method1_attr "min_free_shift" out =
          (execute_ioctl method1_cmd).out CXI_IB_ATTR_METHOD1_RESP_MIN_FREE_SHIFT % 2 ^ 32 ∧
        (∀ i, i < inlen →
          ¬ in_field cxidv_method1_attr "nic_addr" i →
          ¬ in_field cxidv_method1_attr "pid_granule" i →
          ¬ in_field cxidv_method1_attr "pid_count" i →
          ¬ in_field cxidv_method1_attr "pid_bits" i →
          ¬ in_field cxidv_method1_attr "min_free_shift" i → out i = 0)) ∧
    (sizeof cxidv_method2_attr ≤ inlen → (execute_ioctl (method2_cmd mr)).ret = 0 →
      ∃ out : Mem,
        cxidv_method2 execute_ioctl mr (some buf) inlen =
          ⟨0, some out, [.ioctl (method2_cmd mr)]⟩ ∧
        load_field cxidv_method2_attr "md_handle" out =
          (execute_ioctl (method2_cmd mr)).out CXI_IB_ATTR_METHOD2_RESP_MD_HANDLE % 2 ^ 32 ∧
        load_field cxidv_method2_attr "iova" out =
          (execute_ioctl (method2_cmd mr)).out CXI_IB_ATTR_METHOD2_RESP_IOVA % 2 ^ 64 ∧
        load_field cxidv_method2_attr "length" out =
          (execute_ioctl (method2_cmd mr)).out CXI_IB_ATTR_METHOD2_RESP_LENGTH % 2 ^ 64 ∧
        load_field cxidv_method2_attr "access_flags" out =
          (execute_ioctl (method2_cmd mr)).out CXI_IB_ATTR_METHOD2_RESP_ACCESS_FLAGS % 2 ^ 32 ∧
        (∀ i, i < inlen →
          ¬ in_field cxidv_method2_attr "md_handle" i →
          ¬ in_field cxidv_method2_attr "iova" i →
          ¬ in_field cxidv_method2_attr "length" i →
          ¬ in_field cxidv_method2_attr "access_flags" i → out i = 0)) ∧
    (sizeof cxidv_method3_attr ≤ inlen → (execute_ioctl (method3_cmd qp)).ret = 0 →
      ∃ out : Mem,
        cxidv_method3 execute_ioctl qp (some buf) inlen =
          ⟨0, some out, [.ioctl (method3_cmd qp)]⟩ ∧
        load_field cxidv_method3_attr "txq_handle" out =
          (execute_ioctl (method3_cmd qp)).out CXI_IB_ATTR_METHOD3_RESP_TXQ_HANDLE % 2 ^ 32 ∧
        load_field cxidv_method3_attr "tgq_handle" out =
          (execute_ioctl (method3_cmd qp)).out CXI_IB_ATTR_METHOD3_RESP_TGQ_HANDLE % 2 ^ 32 ∧
        load_field cxidv_method3_attr "cmdq_handle" out =
          (execute_ioctl (method3_cmd qp)).out CXI_IB_ATTR_METHOD3_RESP_CMDQ_HANDLE % 2 ^ 32 ∧
        load_field cxidv_method3_attr "eq_handle" out =
          (execute_ioctl (method3_cmd qp)).out CXI_IB_ATTR_METHOD3_RESP_EQ_HANDLE % 2 ^ 32 ∧
        load_field cxidv_method3_attr "state" out =
          (execute_ioctl (method3_cmd qp)).out CXI_IB_ATTR_METHOD3_RESP_STATE % 2 ^ 32 ∧
        (∀ i, i < inlen →
          ¬ in_field cxidv_method3_attr "txq_handle" i →
          ¬ in_field cxidv_method3_attr "tgq_handle" i →
          ¬ in_field cxidv_method3_attr "cmdq_handle" i →
          ¬ in_field cxidv_method3_attr "eq_handle" i →
          ¬ in_field cxidv_method3_attr "state" i → out i = 0)) := by
  refine ⟨?_, ?_, ?_⟩
  · intro h hok
    simp only [cxidv_method1, if_neg (Nat.not_lt.mpr h), hok, ne_eq, not_true_eq_false,
      if_false]
    refine ⟨_, rfl, ?_, ?_, ?_, ?_, ?_, ?_⟩
    · simp (disch := decide) only [load_field_store_other, load_field_store_same]
      exact mod_field_size _ _ _ 4 (by decide) (u32_lt _)
    · simp (disch := decide) only [load_field_store_other, load_field_store_same]
      exact mod_field_size _ _ _ 4 (by decide) (u32_lt _)
    · simp (disch := decide) only [load_field_store_other, load_field_store_same]
      exact mod_field_size _ _ _ 4 (by decide) (u32_lt _)
    · simp (disch := decide) only [load_field_store_other, load_field_store_same]
      exact mod_field_size _ _ _ 4 (by decide) (u32_lt _)
    · simp (disch := decide) only [load_field_store_other, load_field_store_same]
      exact mod_field_size _ _ _ 4 (by decide) (u32_lt _)
    · intro i hi n1 n2 n3 n4 n5
      rw [store_field_outside _ _ _ _ _ n5, store_field_outside _ _ _ _ _ n4,
        store_field_outside _ _ _ _ _ n3, store_field_outside _ _ _ _ _ n2,
        store_field_outside _ _ _ _ _ n1]
      exact store_zero_memset _ _ _ _ _ hi
  · intro h hok
    simp only [cxidv_method2, if_neg (Nat.not_lt.mpr h), hok, ne_eq, not_true_eq_false,
      if_false]
    refine ⟨_, rfl, ?_, ?_, ?_, ?_, ?_⟩
    · simp (disch := decide) only [load_field_store_other, load_field_store_same]
      exact mod_field_size _ _ _ 4 (by decide) (u32_lt _)
    · simp (disch := decide) only [load_field_store_other, load_field_store_same]
      exact mod_field_size _ _ _ 8 (by decide) (u64_lt _)
    · simp (disch := decide) only [load_field_store_other, load_field_store_same]
      exact mod_field_size _ _ _ 8 (by decide) (u64_lt _)
    · simp (disch := decide) only [load_field_store_other, load_field_store_same]
      exact mod_field_size _ _ _ 4 (by decide) (u32_lt _)
    · intro i hi n1 n2 n3 n4
      rw [store_field_outside _ _ _ _ _ n4, store_field_outside _ _ _ _ _ n3,
        store_field_outside _ _ _ _ _ n2, store_field_outside _ _ _ _ _ n1]
      exact store_zero_memset _ _ _ _ _ hi
  · intro h hok
    simp only [cxidv_method3, if_neg (Nat.not_lt.mpr h), hok, ne_eq, not_true_eq_false,
      if_false]
    refine ⟨_, rfl, ?_, ?_, ?_, ?_, ?_, ?_⟩
    · simp (disch := decide) only [load_field_store_other, load_field_store_same]
      exact mod_field_size _ _ _ 4 (by decide) (u32_lt _)
    · simp (disch := decide) only [load_field_store_other, load_field_store_same]
      exact mod_field_size _ _ _ 4 (by decide) (u32_lt _)
    · simp (disch := decide) only [load_field_store_other, load_field_store_same]
      exact mod_field_size _ _ _ 4 (by decide) (u32_lt _)
    · simp (disch := decide) only [load_field_store_other, load_field_store_same]
      exact mod_field_size _ _ _ 4 (by decide) (u32_lt _)
    · simp (disch := decide) only [load_field_store_other, load_field_store_same]
      exact mod_field_size _ _ _ 4 (by decide) (u32_lt _)
    · intro i hi n1 n2 n3 n4 n5
      rw [store_field_outside _ _ _ _ _ n5, store_field_outside _ _ _ _ _ n4,
        store_field_outside _ _ _ _ _ n3, store_field_outside _ _ _ _ _ n2,
        store_field_outside _ _ _ _ _ n1]
      exact store_zero_memset _ _ _ _ _ hi

/-- C3 at `cxidv_method2` with a 48-byte buffer filled with 0xAA and a kernel
returning 7, 8, 9 and 10: the four members hold these values, and a padding
byte, a byte of the reserved array and the last byte below `inlen` are zero. -/
theorem dv_method_success_witness :
    ∃ out : Mem,
      cxidv_method2 sample_kernel {} (some sample_buf) 48 =
        ⟨0, some out, [.ioctl (method2_cmd {})]⟩ ∧
      load_field cxidv_method2_attr "md_handle" out = 7 ∧
      load_field cxidv_method2_attr "iova" out = 8 ∧
      load_field cxidv_method2_attr "length" out = 9 ∧
      load_field cxidv_method2_attr "access_flags" out = 10 ∧
      out 12 = 0 ∧ out 36 = 0 ∧ out 47 = 0 := by
  obtain ⟨out, h, a, b, c, d, z⟩ :=
    (dv_method_success sample_kernel {} {} sample_buf 48).2.1 (by decide) (by decide)
  exact ⟨out, h, a.trans (by decide), b.trans (by decide), c.trans (by decide),
    d.trans (by decide),
    z 12 (by decide) (by decide) (by decide) (by decide) (by decide),
    z 36 (by decide) (by decide) (by decide) (by decide) (by decide),
    z 47 (by decide) (by decide) (by decide) (by decide) (by decide)⟩

/-- C4: for every context whose members hold values of their C types and every
non-NULL buffer with `inlen` at least `sizeof(struct cxidv_device_attr)`,
`cxidv_query_device` returns 0 without any transport request; the six
capability members equal the values cached in the context, and comp_mask and
every other byte below `inlen` are zero. -/
theorem query_device_success (ctx : cxi_context) (buf : Mem) (inlen : Nat)
    (hwf : ctx.wf) (h : sizeof cxidv_device_attr ≤ inlen) :
    ∃ out : Mem, cxidv_query_device ctx (some buf) inlen = ⟨0, some out, []⟩ ∧
      load_field cxidv_device_attr "max_sq_wr" out = ctx.max_sq_wr ∧
      load_field cxidv_device_attr "max_rq_wr" out = ctx.max_rq_wr ∧
      load_field cxidv_device_attr "max_sq_sge" out = ctx.max_sq_sge ∧
      load_field cxidv_device_attr "max_rq_sge" out = ctx.max_rq_sge ∧
      load_field cxidv_device_attr "device_caps" out = ctx.device_caps ∧
      load_field cxidv_device_attr "max_rdma_size" out = ctx.max_rdma_size ∧
      load_field cxidv_device_attr "comp_mask" out = 0 ∧
      (∀ i, i < inlen →
        ¬ in_field cxidv_device_attr "max_sq_wr" i →
        ¬ in_field cxidv_device_attr "max_rq_wr" i →
        ¬ in_field cxidv_device_attr "max_sq_sge" i →
        ¬ in_field cxidv_device_attr "max_rq_sge" i →
        ¬ in_field cxidv_device_attr "device_caps" i →
        ¬ in_field cxidv_device_attr "max_rdma_size" i → out i = 0) := by
  obtain ⟨h1, h2, h3, h4, h5, h6⟩ := hwf
  simp only [cxidv_query_device, if_neg (Nat.not_lt.mpr h)]
  refine ⟨_, rfl, ?_, ?_, ?_, ?_, ?_, ?_, ?_, ?_⟩
  · simp (disch := decide) only [load_field_store_other, load_field_store_same]
    exact mod_field_size _ _ _ 4 (by decide) (by norm_num; omega)
  · simp (disch := decide) only [load_field_store_other, load_field_store_same]
    exact mod_field_size _ _ _ 4 (by decide) (by norm_num; omega)
  · simp (disch := decide) only [load_field_store_other, load_field_store_same]
    exact mod_field_size _ _ _ 2 (by decide) (by norm_num; omega)
  · simp (disch := decide) only [load_field_store_other, load_field_store_same]
    exact mod_field_size _ _ _ 2 (by decide) (by norm_num; omega)
  · simp (disch := decide) only [load_field_store_other, load_field_store_same]
    exact mod_field_size _ _ _ 4 (by decide) (by norm_num; omega)
  · simp (disch := decide) only [load_field_store_other, load_field_store_same]
    exact mod_field_size _ _ _ 4 (by decide) (by norm_num; omega)
  · simp (disch := decide) only [load_field_store_other, load_field_store_same]
    exact Nat.zero_mod _
  · intro i hi n1 n2 n3 n4 n5 n6
    rw [store_field_outside _ _ _ _ _ n6, store_field_outside _ _ _ _ _ n5,
      store_field_outside _ _ _ _ _ n4, store_field_outside _ _ _ _ _ n3,
      store_field_outside _ _ _ _ _ n2, store_field_outside _ _ _ _ _ n1]
    exact store_zero_memset _ _ _ _ _ hi

/-- C4 at the sample context and a 40-byte buffer filled with 0xAA. -/
theorem query_device_success_witness :
    ∃ out : Mem, cxidv_query_device sample_ctx (some sample_buf) 40 = ⟨0, some out, []⟩ ∧
      load_field cxidv_device_attr "max_sq_wr" out = 1024 ∧
      load_field cxidv_device_attr "max_rq_wr" out = 512 ∧
      load_field cxidv_device_attr "max_sq_sge" out = 4 ∧
      load_field cxidv_device_attr "max_rq_sge" out = 2 ∧
      load_field cxidv_device_attr "device_caps" out = 7 ∧
      load_field cxidv_device_attr "max_rdma_size" out = 65536 ∧
      load_field cxidv_device_attr "comp_mask" out = 0 ∧
      out 28 = 0 ∧ out 39 = 0 := by
  obtain ⟨out, h, a, b, c, d, e, f, g, z⟩ :=
    query_device_success sample_ctx sample_buf 40 (by decide) (by decide)
  exact ⟨out, h, a, b, c, d, e, f, g,
    z 28 (by decide) (by decide) (by decide) (by decide) (by decide) (by decide) (by decide),
    z 39 (by decide) (by decide) (by decide) (by decide) (by decide) (by decide) (by decide)⟩

/-! ## Transport failures -/

/-- C5: for each of `cxidv_method1`, `cxidv_method2` and `cxidv_method3`, when
the buffer passes validation and the transport request fails with a non-zero
code, the call returns that code unchanged, has submitted exactly one request
and leaves the caller's buffer as it was. -/
theorem dv_transport_failure (execute_ioctl : ioctl_cmd → ioctl_reply) (mr : ibv_mr)
    (qp : ibv_qp) (buf : Mem) (inlen : Nat) :
    (sizeof cxidv_method1_attr ≤ inlen → (execute_ioctl method1_cmd).ret ≠ 0 →
      cxidv_method1 execute_ioctl (some buf) inlen =
        ⟨(execute_ioctl method1_cmd).ret, some buf, [.ioctl method1_cmd]⟩) ∧
    (sizeof cxidv_method2_attr ≤ inlen → (execute_ioctl (method2_cmd mr)).ret ≠ 0 →
      cxidv_method2 execute_ioctl mr (some buf) inlen =
        ⟨(execute_ioctl (method2_cmd mr)).ret, some buf, [.ioctl (method2_cmd mr)]⟩) ∧
    (sizeof cxidv_method3_attr ≤ inlen → (execute_ioctl (method3_cmd qp)).ret ≠ 0 →
      cxidv_method3 execute_ioctl qp (some buf) inlen =
        ⟨(execute_ioctl (method3_cmd qp)).ret, some buf, [.ioctl (method3_cmd qp)]⟩) := by
  refine ⟨?_, ?_, ?_⟩ <;> intro h hfail
  · simp only [cxidv_method1, if_neg (Nat.not_lt.mpr h), if_pos hfail]
  · simp only [cxidv_method2, if_neg (Nat.not_lt.mpr h), if_pos hfail]
  · simp only [cxidv_method3, if_neg (Nat.not_lt.mpr h), if_pos hfail]

/-- C5 at a kernel failing with code 5 and 40-byte buffers. -/
theorem dv_transport_failure_witness :
    cxidv_method1 sample_kernel_fail (some sample_buf) 40 =
      ⟨5, some sample_buf, [.ioctl method1_cmd]⟩ ∧
    cxidv_method2 sample_kernel_fail {} (some sample_buf) 40 =
      ⟨5, some sample_buf, [.ioctl (method2_cmd {})]⟩ ∧
    cxidv_method3 sample_kernel_fail {} (some sample_buf) 40 =
      ⟨5, some sample_buf, [.ioctl (method3_cmd {})]⟩ :=
  ⟨(dv_transport_failure sample_kernel_fail {} {} sample_buf 40).1 (by decide) (by decide),
   (dv_transport_failure sample_kernel_fail {} {} sample_buf 40).2.1 (by decide) (by decide),
   (dv_transport_failure sample_kernel_fail {} {} sample_buf 40).2.2 (by decide) (by decide)⟩

/-! ## Work submission -/

theorem create_qp_some (calloc_ok : Bool) (create : cxi_create_qp_cmd → create_qp_reply)
    (attr : ibv_qp_init_attr) (qp : cxi_qp)
    (h : (cxi_create_qp calloc_ok create attr).qp = some qp ∨
      (cxi_create_qp_ex calloc_ok create attr).qp = some qp) :
    qp = { verbs_qp := (create (create_qp_cmd attr)).ibv,
           qp_handle := (create (create_qp_cmd attr)).resp.qp_handle % 2 ^ 32,
           qp_num := (create (create_qp_cmd attr)).resp.qp_num % 2 ^ 32,
           sq_db_offset := (create (create_qp_cmd attr)).resp.sq_db_offset % 2 ^ 32,
           rq_db_offset := (create (create_qp_cmd attr)).resp.rq_db_offset % 2 ^ 32,
           state := IBV_QPS_RESET, sq_lock := true, rq_lock := true } := by
  rcases h with h | h
  · unfold cxi_create_qp at h
    cases calloc_ok with
    | false => simp at h
    | true =>
      by_cases hr : (create (create_qp_cmd attr)).ret = 0
      · simp [hr] at h
        exact h.symm
      · simp [hr] at h
  · unfold cxi_create_qp_ex at h
    cases calloc_ok with
    | false => simp at h
    | true =>
      by_cases hr : (create (create_qp_cmd attr)).ret = 0
      · simp [hr] at h
        exact h.symm
      · simp [hr] at h

theorem post_send_seq_spec {WR : Type} (wrs : List (List WR)) : ∀ qp : cxi_qp,
    (post_send_seq qp wrs).1 = List.replicate wrs.length ENOSYS ∧
    (post_send_seq qp wrs).2 = qp := by
  induction wrs with
  | nil => intro qp; exact ⟨rfl, rfl⟩
  | cons wr rest ih =>
    intro qp
    have h := ih qp
    simp only [post_send_seq, cxi_post_send, List.length_cons, List.replicate_succ]
    exact ⟨by rw [h.1], h.2⟩

/-- C7: for every queue pair and every work-request list, `cxi_post_send` and
`cxi_post_recv` return the non-zero code `ENOSYS`, make `*bad_wr` point at the
head of the caller's list (the whole list is handed back) and leave the queue
pair untouched, so no request is accepted. -/
theorem post_not_implemented {WR : Type} (qp : cxi_qp) (wr : List WR) :
    cxi_post_send qp wr = ⟨ENOSYS, wr, qp⟩ ∧ cxi_post_recv qp wr = ⟨ENOSYS, wr, qp⟩ ∧
    ENOSYS ≠ 0 :=
  ⟨rfl, rfl, by decide⟩

/-- C8 fails on the code: on a queue pair created with send depth 1, two
successive `cxi_post_send` calls both return `ENOSYS`, which is not the
resource-exhaustion code, and `posted − completed` of the send queue is 0
instead of 1. -/
theorem post_send_capacity_counterexample :
    (cxi_create_qp true sample_create { cap := { max_send_wr := 1 } }).qp = some sample_qp ∧
    (post_send_seq sample_qp [[101], [102]]).1 = [ENOSYS, ENOSYS] ∧
    ENOSYS ≠ ENOMEM ∧
    (post_send_seq sample_qp [[101], [102]]).2.sq.outstanding ≠ 1 :=
  ⟨rfl, rfl, by decide, by decide⟩

/-- C8 as amended: on every queue pair returned by `cxi_create_qp` or
`cxi_create_qp_ex`, whatever the send depth, every one of any number of
successive `cxi_post_send` calls fails with `ENOSYS`, and the send queue stays
as created, with `posted − completed` equal to 0. -/
theorem post_send_after_create {WR : Type} (calloc_ok : Bool)
    (create : cxi_create_qp_cmd → create_qp_reply) (attr : ibv_qp_init_attr) (qp : cxi_qp)
    (wrs : List (List WR))
    (h : (cxi_create_qp calloc_ok create attr).qp = some qp ∨
      (cxi_create_qp_ex calloc_ok create attr).qp = some qp) :
    (post_send_seq qp wrs).1 = List.replicate wrs.length ENOSYS ∧
    (post_send_seq qp wrs).2 = qp ∧
    (post_send_seq qp wrs).2.sq.outstanding = 0 := by
  have hs := post_send_seq_spec wrs qp
  refine ⟨hs.1, hs.2, ?_⟩
  rw [hs.2, create_qp_some calloc_ok create attr qp h]
  simp [cxi_wq.outstanding]

/-- C8 as amended, at a queue pair of send depth 2 and three posts. -/
theorem post_send_after_create_witness :
    (post_send_seq sample_qp [[101], [102], [103]]).1 = [ENOSYS, ENOSYS, ENOSYS] ∧
    (post_send_seq sample_qp [[101], [102], [103]]).2 = sample_qp ∧
    (post_send_seq sample_qp [[101], [102], [103]]).2.sq.outstanding = 0 :=
  post_send_after_create true sample_create { cap := { max_send_wr := 2 } } sample_qp
    [[101], [102], [103]] (Or.inl rfl)

/-! ## Queue-pair state -/

/-- C9: for every queue pair, attribute set and attribute mask, if the generic
modify command fails with a non-zero code then `cxi_modify_qp` returns that
code and the queue pair, its cached state included, is as before the call. -/
theorem modify_qp_failure (IBV_QP_STATE : Nat)
    (ibv_cmd_modify_qp : ibv_qp → ibv_qp_attr → Nat → Int) (qp : cxi_qp) (attr : ibv_qp_attr)
    (attr_mask : Nat) (h : ibv_cmd_modify_qp qp.verbs_qp attr attr_mask ≠ 0) :
    (cxi_modify_qp IBV_QP_STATE ibv_cmd_modify_qp qp attr attr_mask).ret =
      ibv_cmd_modify_qp qp.verbs_qp attr attr_mask ∧
    (cxi_modify_qp IBV_QP_STATE ibv_cmd_modify_qp qp attr attr_mask).qp.state = qp.state ∧
    (cxi_modify_qp IBV_QP_STATE ibv_cmd_modify_qp qp attr attr_mask).qp = qp := by
  simp only [cxi_modify_qp, if_pos h, and_self]

/-- C9 at a failing modify towards INIT with the state bit set. -/
theorem modify_qp_failure_witness :
    (cxi_modify_qp 1 sample_modify_fail sample_qp ⟨IBV_QPS_INIT⟩ 1).ret = 22 ∧
    (cxi_modify_qp 1 sample_modify_fail sample_qp ⟨IBV_QPS_INIT⟩ 1).qp.state =
      IBV_QPS_RESET ∧
    (cxi_modify_qp 1 sample_modify_fail sample_qp ⟨IBV_QPS_INIT⟩ 1).qp = sample_qp :=
  modify_qp_failure 1 sample_modify_fail sample_qp ⟨IBV_QPS_INIT⟩ 1 (by decide)

/-- C10: a queue pair just returned by a successful `cxi_create_qp` or
`cxi_create_qp_ex` has cached state RESET; every successful `cxi_modify_qp`
call carrying the state bit leaves the cached state equal to the requested
state; hence three successive successful calls carrying the state bit and
requesting INIT, RTR and RTS leave the cached state equal to RTS. -/
theorem modify_qp_reset_to_rts (calloc_ok : Bool)
    (create : cxi_create_qp_cmd → create_qp_reply) (init_attr : ibv_qp_init_attr)
    (IBV_QP_STATE : Nat) (k1 k2 k3 : ibv_qp → ibv_qp_attr → Nat → Int) (m1 m2 m3 : Nat)
    (qp : cxi_qp)
    (hc : (cxi_create_qp calloc_ok create init_attr).qp = some qp ∨
      (cxi_create_qp_ex calloc_ok create init_attr).qp = some qp)
    (hm1 : m1 &&& IBV_QP_STATE ≠ 0) (hm2 : m2 &&& IBV_QP_STATE ≠ 0)
    (hm3 : m3 &&& IBV_QP_STATE ≠ 0)
    (h1 : (cxi_modify_qp IBV_QP_STATE k1 qp ⟨IBV_QPS_INIT⟩ m1).ret = 0)
    (h2 : (cxi_modify_qp IBV_QP_STATE k2
      (cxi_modify_qp IBV_QP_STATE k1 qp ⟨IBV_QPS_INIT⟩ m1).qp ⟨IBV_QPS_RTR⟩ m2).ret = 0)
    (h3 : (cxi_modify_qp IBV_QP_STATE k3
      (cxi_modify_qp IBV_QP_STATE k2
        (cxi_modify_qp IBV_QP_STATE k1 qp ⟨IBV_QPS_INIT⟩ m1).qp ⟨IBV_QPS_RTR⟩ m2).qp
      ⟨IBV_QPS_RTS⟩ m3).ret = 0) :
    qp.state = IBV_QPS_RESET ∧
    (∀ (k : ibv_qp → ibv_qp_attr → Nat → Int) (q : cxi_qp) (attr : ibv_qp_attr) (m : Nat),
      (cxi_modify_qp IBV_QP_STATE k q attr m).ret = 0 → m &&& IBV_QP_STATE ≠ 0 →
      (cxi_modify_qp IBV_QP_STATE k q attr m).qp.state = attr.qp_state) ∧
    (cxi_modify_qp IBV_QP_STATE k1 qp ⟨IBV_QPS_INIT⟩ m1).qp.state = IBV_QPS_INIT ∧
    (cxi_modify_qp IBV_QP_STATE k2
      (cxi_modify_qp IBV_QP_STATE k1 qp ⟨IBV_QPS_INIT⟩ m1).qp ⟨IBV_QPS_RTR⟩ m2).qp.state =
      IBV_QPS_RTR ∧
    (cxi_modify_qp IBV_QP_STATE k3
      (cxi_modify_qp IBV_QP_STATE k2
        (cxi_modify_qp IBV_QP_STATE k1 qp ⟨IBV_QPS_INIT⟩ m1).qp ⟨IBV_QPS_RTR⟩ m2).qp
      ⟨IBV_QPS_RTS⟩ m3).qp.state = IBV_QPS_RTS := by
  have step : ∀ (k : ibv_qp → ibv_qp_attr → Nat → Int) (q : cxi_qp) (attr : ibv_qp_attr)
      (m : Nat), (cxi_modify_qp IBV_QP_STATE k q attr m).ret = 0 → m &&& IBV_QP_STATE ≠ 0 →
      (cxi_modify_qp IBV_QP_STATE k q attr m).qp.state = attr.qp_state := by
    intro k q attr m hret hm
    unfold cxi_modify_qp at hret ⊢
    by_cases hk : k q.verbs_qp attr m = 0
    · simp [hk, hm]
    · simp [hk] at hret
  refine ⟨?_, step, step _ _ _ _ h1 hm1, step _ _ _ _ h2 hm2, step _ _ _ _ h3 hm3⟩
  rw [create_qp_some calloc_ok create init_attr qp hc]

/-- C10 at the sample queue pair, the state bit being bit 0 and the masks 1, 1
and 3. -/
theorem modify_qp_reset_to_rts_witness :
    (cxi_modify_qp 1 sample_modify_ok
      (cxi_modify_qp 1 sample_modify_ok
        (cxi_modify_qp 1 sample_modify_ok sample_qp ⟨IBV_QPS_INIT⟩ 1).qp ⟨IBV_QPS_RTR⟩ 1).qp
      ⟨IBV_QPS_RTS⟩ 3).qp.state = IBV_QPS_RTS :=
  (modify_qp_reset_to_rts true sample_create {} 1 sample_modify_ok sample_modify_ok
    sample_modify_ok 1 1 3 sample_qp (Or.inl rfl) (by decide) (by decide) (by decide)
    (by decide) (by decide) (by decide)).2.2.2.2

/-! ## Destroy and create failures -/

theorem live_records_alloc_free (live : List resource) (r : resource) (c : uverbs_cmd) :
    live_records live [.calloc r, .cmd c, .free r] = live := by
  simp [live_records]

/-- C11: for each of `cxi_dealloc_pd`, `cxi_dereg_mr`, `cxi_destroy_cq`,
`cxi_destroy_qp` and `cxi_destroy_ah`, if the generic destroy command fails
with a non-zero code the entry point returns that code, performs nothing but
the command (no lock is destroyed, nothing is freed) and the record is left as
it was; the record is released, and 0 returned, exactly when the command
succeeds. -/
theorem destroy_keeps_record_on_failure
    (k_pd : ibv_pd → Int) (pd : cxi_pd) (k_mr : ibv_mr → Int) (mr : cxi_mr)
    (k_cq : ibv_cq → Int) (cq : cxi_cq) (k_qp : ibv_qp → Int) (qp : cxi_qp)
    (k_ah : ibv_ah → Int) (ah : cxi_ah) :
    ((k_pd pd.ibvpd ≠ 0 → cxi_dealloc_pd k_pd pd =
        ⟨k_pd pd.ibvpd, some pd, [.cmd (.dealloc_pd pd.ibvpd.handle)]⟩) ∧
      (k_pd pd.ibvpd = 0 → cxi_dealloc_pd k_pd pd =
        ⟨0, none, [.cmd (.dealloc_pd pd.ibvpd.handle), .free .pd]⟩) ∧
      ((cxi_dealloc_pd k_pd pd).record = none ↔ k_pd pd.ibvpd = 0) ∧
      ((cxi_dealloc_pd k_pd pd).ret = 0 ↔ k_pd pd.ibvpd = 0)) ∧
    ((k_mr mr.verbs_mr ≠ 0 → cxi_dereg_mr k_mr mr =
        ⟨k_mr mr.verbs_mr, some mr, [.cmd (.dereg_mr mr.verbs_mr.handle)]⟩) ∧
      (k_mr mr.verbs_mr = 0 → cxi_dereg_mr k_mr mr =
        ⟨0, none, [.cmd (.dereg_mr mr.verbs_mr.handle), .free .mr]⟩) ∧
      ((cxi_dereg_mr k_mr mr).record = none ↔ k_mr mr.verbs_mr = 0) ∧
      ((cxi_dereg_mr k_mr mr).ret = 0 ↔ k_mr mr.verbs_mr = 0)) ∧
    ((k_cq cq.verbs_cq ≠ 0 → cxi_destroy_cq k_cq cq =
        ⟨k_cq cq.verbs_cq, some cq, [.cmd (.destroy_cq cq.verbs_cq.handle)]⟩) ∧
      (k_cq cq.verbs_cq = 0 → cxi_destroy_cq k_cq cq =
        ⟨0, none, [.cmd (.destroy_cq cq.verbs_cq.handle), .spin_destroy "lock",
          .free .cq]⟩) ∧
      ((cxi_destroy_cq k_cq cq).record = none ↔ k_cq cq.verbs_cq = 0) ∧
      ((cxi_destroy_cq k_cq cq).ret = 0 ↔ k_cq cq.verbs_cq = 0)) ∧
    ((k_qp qp.verbs_qp ≠ 0 → cxi_destroy_qp k_qp qp =
        ⟨k_qp qp.verbs_qp, some qp, [.cmd (.destroy_qp qp.verbs_qp.handle)]⟩) ∧
      (k_qp qp.verbs_qp = 0 → cxi_destroy_qp k_qp qp =
        ⟨0, none, [.cmd (.destroy_qp qp.verbs_qp.handle), .spin_destroy "sq_lock",
          .spin_destroy "rq_lock", .free .qp]⟩) ∧
      ((cxi_destroy_qp k_qp qp).record = none ↔ k_qp qp.verbs_qp = 0) ∧
      ((cxi_destroy_qp k_qp qp).ret = 0 ↔ k_qp qp.verbs_qp = 0)) ∧
    ((k_ah ah.ibvah ≠ 0 → cxi_destroy_ah k_ah ah =
        ⟨k_ah ah.ibvah, some ah, [.cmd (.destroy_ah ah.ibvah.handle)]⟩) ∧
      (k_ah ah.ibvah = 0 → cxi_destroy_ah k_ah ah =
        ⟨0, none, [.cmd (.destroy_ah ah.ibvah.handle), .free .ah]⟩) ∧
      ((cxi_destroy_ah k_ah ah).record = none ↔ k_ah ah.ibvah = 0) ∧
      ((cxi_destroy_ah k_ah ah).ret = 0 ↔ k_ah ah.ibvah = 0)) := by
  refine ⟨?_, ?_, ?_, ?_, ?_⟩
  · by_cases h : k_pd pd.ibvpd = 0 <;> simp [cxi_dealloc_pd, h]
  · by_cases h : k_mr mr.verbs_mr = 0 <;> simp [cxi_dereg_mr, h]
  · by_cases h : k_cq cq.verbs_cq = 0 <;> simp [cxi_destroy_cq, h]
  · by_cases h : k_qp qp.verbs_qp = 0 <;> simp [cxi_destroy_qp, h]
  · by_cases h : k_ah ah.ibvah = 0 <;> simp [cxi_destroy_ah, h]

/-- C11 at a queue pair whose destroy command fails with code 16 and at a
completion queue whose destroy command succeeds. -/
theorem destroy_keeps_record_on_failure_witness :
    cxi_destroy_qp sample_destroy_fail sample_qp =
      ⟨16, some sample_qp, [.cmd (.destroy_qp 9)]⟩ ∧
    cxi_destroy_cq sample_destroy_ok sample_cq =
      ⟨0, none, [.cmd (.destroy_cq 7), .spin_destroy "lock", .free .cq]⟩ :=
  ⟨(destroy_keeps_record_on_failure sample_destroy_fail sample_pd sample_destroy_fail sample_mr
      sample_destroy_ok sample_cq sample_destroy_fail sample_qp sample_destroy_fail
      sample_ah).2.2.2.1.1 (by decide),
   (destroy_keeps_record_on_failure sample_destroy_fail sample_pd sample_destroy_fail sample_mr
      sample_destroy_ok sample_cq sample_destroy_fail sample_qp sample_destroy_fail
      sample_ah).2.2.1.2.1 (by decide)⟩

/-- C12: for each of `cxi_alloc_context`, `cxi_alloc_pd`, `cxi_reg_mr`,
`cxi_create_cq`, `cxi_create_cq_ex`, `cxi_create_qp`, `cxi_create_qp_ex` and
`cxi_create_ah`, when the record has been allocated and the transport command
fails, the entry point returns NULL, its effects are the allocation, the
command and the release of the record, and the allocated records afterwards
are those allocated before the call. -/
theorem create_failure_releases_record (live : List resource)
    (k_ctx : cxi_ibv_alloc_ucontext_cmd → get_context_reply) (vdev : ibv_device) (cmd_fd : Int)
    (k_pd : ibv_context → alloc_pd_reply) (context : ibv_context)
    (k_mr : cxi_reg_mr_cmd → reg_mr_reply) (pd : cxi_pd) (addr length access : Nat)
    (k_cq : cxi_create_cq_cmd → create_cq_reply) (cqe comp_vector : Int)
    (cq_attr : ibv_cq_init_attr_ex)
    (k_qp : cxi_create_qp_cmd → create_qp_reply) (qp_attr : ibv_qp_init_attr)
    (k_ah : ibv_ah_attr → create_ah_reply) (ah_attr : ibv_ah_attr) :
    ((k_ctx {}).ret ≠ 0 →
      cxi_alloc_context true k_ctx vdev cmd_fd =
        ⟨none, [.calloc .context, .cmd (.get_context {}), .uninit_context,
          .free .context]⟩ ∧
      live_records live (cxi_alloc_context true k_ctx vdev cmd_fd).events = live) ∧
    ((k_pd context).ret ≠ 0 →
      cxi_alloc_pd true k_pd context = ⟨none, [.calloc .pd, .cmd .alloc_pd, .free .pd]⟩ ∧
      live_records live (cxi_alloc_pd true k_pd context).events = live) ∧
    ((k_mr (reg_mr_cmd addr length access)).ret ≠ 0 →
      cxi_reg_mr true k_mr pd addr length access =
        ⟨none, [.calloc .mr, .cmd (.reg_mr (reg_mr_cmd addr length access)), .free .mr]⟩ ∧
      live_records live (cxi_reg_mr true k_mr pd addr length access).events = live) ∧
    ((k_cq (create_cq_cmd cqe comp_vector)).ret ≠ 0 →
      cxi_create_cq true k_cq cqe comp_vector =
        ⟨none, [.calloc .cq, .cmd (.create_cq (create_cq_cmd cqe comp_vector)), .free .cq]⟩ ∧
      live_records live (cxi_create_cq true k_cq cqe comp_vector).events = live) ∧
    ((k_cq (create_cq_ex_cmd cq_attr)).ret ≠ 0 →
      cxi_create_cq_ex true k_cq cq_attr =
        ⟨none, [.calloc .cq, .cmd (.create_cq_ex (create_cq_ex_cmd cq_attr)), .free .cq]⟩ ∧
      live_records live (cxi_create_cq_ex true k_cq cq_attr).events = live) ∧
    ((k_qp (create_qp_cmd qp_attr)).ret ≠ 0 →
      cxi_create_qp true k_qp qp_attr =
        ⟨none, [.calloc .qp, .cmd (.create_qp (create_qp_cmd qp_attr)), .free .qp]⟩ ∧
      live_records live (cxi_create_qp true k_qp qp_attr).events = live) ∧
    ((k_qp (create_qp_cmd qp_attr)).ret ≠ 0 →
      cxi_create_qp_ex true k_qp qp_attr =
        ⟨none, [.calloc .qp, .cmd (.create_qp_ex (create_qp_cmd qp_attr)), .free .qp]⟩ ∧
      live_records live (cxi_create_qp_ex true k_qp qp_attr).events = live) ∧
    ((k_ah ah_attr).ret ≠ 0 →
      cxi_create_ah true k_ah pd ah_attr =
        ⟨none, [.calloc .ah, .cmd (.create_ah ah_attr), .free .ah]⟩ ∧
      live_records live (cxi_create_ah true k_ah pd ah_attr).events = live) := by
  refine ⟨?_, ?_, ?_, ?_, ?_, ?_, ?_, ?_⟩ <;> intro h
  · simp [cxi_alloc_context, h, live_records]
  · simp [cxi_alloc_pd, h, live_records]
  · simp [cxi_reg_mr, h, live_records]
  · simp [cxi_create_cq, h, live_records]
  · simp [cxi_create_cq_ex, h, live_records]
  · simp [cxi_create_qp, h, live_records]
  · simp [cxi_create_qp_ex, h, live_records]
  · simp [cxi_create_ah, h, live_records]

/-- C12 at a queue-pair creation whose command fails with code 12, with one
protection domain and one completion queue allocated beforehand. -/
theorem create_failure_releases_record_witness :
    cxi_create_qp true sample_create_fail {} =
      ⟨none, [.calloc .qp, .cmd (.create_qp (create_qp_cmd {})), .free .qp]⟩ ∧
    live_records [.cq, .pd] (cxi_create_qp true sample_create_fail {}).events = [.cq, .pd] :=
  (create_failure_releases_record [.cq, .pd] (fun _ => ⟨0, {}⟩) {} 0 (fun _ => ⟨0, {}, {}⟩) {}
    (fun _ => ⟨0, {}, {}⟩) sample_pd 0 0 0 (fun _ => ⟨0, {}, {}⟩) 0 0 {} sample_create_fail {}
    (fun _ => ⟨0, {}⟩) {}).2.2.2.2.2.1 (by decide)

/-! ## Device context -/

theorem query_device_ctx_spec (ctx : cxi_context) (hwf : ctx.wf) :
    cxi_query_device_ctx ctx = ⟨0, ctx, []⟩ := by
  obtain ⟨h1, h2, h3, h4, h5, h6⟩ := hwf
  have e1 := mod_field_size cxidv_device_attr "device_caps" ctx.device_caps 4 (by decide)
    (by norm_num; omega)
  have e2 := mod_field_size cxidv_device_attr "max_sq_wr" ctx.max_sq_wr 4 (by decide)
    (by norm_num; omega)
  have e3 := mod_field_size cxidv_device_attr "max_rq_wr" ctx.max_rq_wr 4 (by decide)
    (by norm_num; omega)
  have e4 := mod_field_size cxidv_device_attr "max_sq_sge" ctx.max_sq_sge 2 (by decide)
    (by norm_num; omega)
  have e5 := mod_field_size cxidv_device_attr "max_rq_sge" ctx.max_rq_sge 2 (by decide)
    (by norm_num; omega)
  have e6 := mod_field_size cxidv_device_attr "max_rdma_size" ctx.max_rdma_size 4 (by decide)
    (by norm_num; omega)
  simp only [cxi_query_device_ctx, cxidv_query_device, lt_irrefl, if_false, ne_eq,
    not_true_eq_false, Option.getD_some]
  simp (disch := decide) only [load_field_store_other, load_field_store_same]
  rw [e1, e2, e3, e4, e5, e6]

theorem alloc_context_some (alloc_ok : Bool)
    (k : cxi_ibv_alloc_ucontext_cmd → get_context_reply) (vdev : ibv_device) (cmd_fd : Int)
    (ctx : cxi_context) (h : (cxi_alloc_context alloc_ok k vdev cmd_fd).ctx = some ctx) :
    ctx = { ibvctx := { device := vdev, cmd_fd := cmd_fd }, uarn := (k {}).resp.uarn % 2 ^ 16,
            qp_table_lock := true } := by
  have hq := query_device_ctx_spec
    { ibvctx := { device := vdev, cmd_fd := cmd_fd }, uarn := (k {}).resp.uarn % 2 ^ 16,
      qp_table_lock := true }
    (by simp [cxi_context.wf])
  unfold cxi_alloc_context at h
  cases alloc_ok with
  | false => simp at h
  | true =>
    by_cases hr : (k {}).ret = 0
    · simp only [Bool.not_true, Bool.false_eq_true, if_false, hr, ne_eq, not_true_eq_false,
        hq] at h
      simpa using h.symm
    · simp [hr] at h

/-- C20: for every context whose members hold values of their C types,
`cxi_query_device_ctx` returns 0 without a transport request and leaves
device_caps, max_sq_wr, max_rq_wr, max_sq_sge, max_rq_sge and max_rdma_size
(indeed the whole context) as they were; hence in a context returned by
`cxi_alloc_context` these six members are 0, the values of the zero-filled
context. -/
theorem query_device_ctx_preserves (ctx : cxi_context) (hwf : ctx.wf) :
    (cxi_query_device_ctx ctx).ret = 0 ∧
    (cxi_query_device_ctx ctx).events = [] ∧
    (cxi_query_device_ctx ctx).ctx.device_caps = ctx.device_caps ∧
    (cxi_query_device_ctx ctx).ctx.max_sq_wr = ctx.max_sq_wr ∧
    (cxi_query_device_ctx ctx).ctx.max_rq_wr = ctx.max_rq_wr ∧
    (cxi_query_device_ctx ctx).ctx.max_sq_sge = ctx.max_sq_sge ∧
    (cxi_query_device_ctx ctx).ctx.max_rq_sge = ctx.max_rq_sge ∧
    (cxi_query_device_ctx ctx).ctx.max_rdma_size = ctx.max_rdma_size ∧
    (cxi_query_device_ctx ctx).ctx = ctx ∧
    (∀ (alloc_ok : Bool) (k : cxi_ibv_alloc_ucontext_cmd → get_context_reply)
      (vdev : ibv_device) (cmd_fd : Int) (c : cxi_context),
      (cxi_alloc_context alloc_ok k vdev cmd_fd).ctx = some c →
      c.device_caps = 0 ∧ c.max_sq_wr = 0 ∧ c.max_rq_wr = 0 ∧ c.max_sq_sge = 0 ∧
      c.max_rq_sge = 0 ∧ c.max_rdma_size = 0) := by
  rw [query_device_ctx_spec ctx hwf]
  refine ⟨rfl, rfl, rfl, rfl, rfl, rfl, rfl, rfl, rfl, ?_⟩
  intro alloc_ok k vdev cmd_fd c hc
  rw [alloc_context_some alloc_ok k vdev cmd_fd c hc]
  exact ⟨rfl, rfl, rfl, rfl, rfl, rfl⟩

/-- C20 at the sample context and at the context allocated with the sample
get-context reply. -/
theorem query_device_ctx_preserves_witness :
    (cxi_query_device_ctx sample_ctx).ret = 0 ∧
    (cxi_query_device_ctx sample_ctx).ctx = sample_ctx ∧
    (cxi_alloc_context true sample_get_context { name := "cxi_0" } 3).ctx =
      some { ibvctx := { device := { name := "cxi_0" }, cmd_fd := 3 }, uarn := 3,
             qp_table_lock := true } := by
  have h := query_device_ctx_preserves sample_ctx (by decide)
  have hq := query_device_ctx_spec
    { ibvctx := { device := { name := "cxi_0" }, cmd_fd := 3 }, uarn := 3,
      qp_table_lock := true } (by decide)
  refine ⟨h.1, h.2.2.2.2.2.2.2.2.1, ?_⟩
  simp only [cxi_alloc_context, sample_get_context, Bool.not_true, Bool.false_eq_true,
    if_false, ne_eq, not_true_eq_false]
  norm_num
  rw [hq]
  simp

/-! ## Kernel-returned fields -/

/-- C13 fails on the code: two successful completion-queue creations whose
vendor responses differ in actual_depth (16 and 32) and in db_off (4096 and
8192) return the same record, so the record holds neither; and a successful
address-handle creation returns a record whose number `ahn` is 0, the handle 8
given by the kernel being kept in the generic object only. -/
theorem create_stores_fields_counterexample :
    (cxi_create_cq true sample_create_cq 16 0).cq = some sample_cq ∧
    (cxi_create_cq true sample_create_cq_other 16 0).cq = some sample_cq ∧
    (sample_create_cq (create_cq_cmd 16 0)).resp.actual_depth ≠
      (sample_create_cq_other (create_cq_cmd 16 0)).resp.actual_depth ∧
    (sample_create_cq (create_cq_cmd 16 0)).resp.db_off ≠
      (sample_create_cq_other (create_cq_cmd 16 0)).resp.db_off ∧
    (cxi_create_ah true sample_env.create_ah sample_pd {}).ah = some sample_ah :=
  ⟨rfl, rfl, by decide, by decide, rfl⟩

/-- C13 as amended: on success, the context holds the kernel's uarn, the
protection domain its pdn, the memory region the l_key of the response as its
memory-descriptor handle, the completion queue cq_idx (also as cqn), the queue
pair qp_handle, qp_num, sq_db_offset and rq_db_offset, and the address handle
the generic object filled in by the generic command. -/
theorem create_stores_fields
    (k_ctx : cxi_ibv_alloc_ucontext_cmd → get_context_reply) (vdev : ibv_device) (cmd_fd : Int)
    (k_pd : ibv_context → alloc_pd_reply) (context : ibv_context)
    (k_mr : cxi_reg_mr_cmd → reg_mr_reply) (pd0 : cxi_pd) (addr length access : Nat)
    (k_cq : cxi_create_cq_cmd → create_cq_reply) (cqe comp_vector : Int)
    (cq_attr : ibv_cq_init_attr_ex)
    (k_qp : cxi_create_qp_cmd → create_qp_reply) (qp_attr : ibv_qp_init_attr)
    (k_ah : ibv_ah_attr → create_ah_reply) (ah_attr : ibv_ah_attr) (calloc_ok : Bool) :
    (∀ ctx, (cxi_alloc_context calloc_ok k_ctx vdev cmd_fd).ctx = some ctx →
      ctx.uarn = (k_ctx {}).resp.uarn % 2 ^ 16) ∧
    (∀ pd, (cxi_alloc_pd calloc_ok k_pd context).pd = some pd →
      pd.pdn = (k_pd context).resp.pdn % 2 ^ 16) ∧
    (∀ mr, (cxi_reg_mr calloc_ok k_mr pd0 addr length access).mr = some mr →
      mr.md_handle = (k_mr (reg_mr_cmd addr length access)).resp.l_key % 2 ^ 32) ∧
    (∀ cq, (cxi_create_cq calloc_ok k_cq cqe comp_vector).cq = some cq →
      cq.cq_idx = (k_cq (create_cq_cmd cqe comp_vector)).resp.cq_idx % 2 ^ 16 ∧
      cq.cqn = (k_cq (create_cq_cmd cqe comp_vector)).resp.cq_idx % 2 ^ 16) ∧
    (∀ cq, (cxi_create_cq_ex calloc_ok k_cq cq_attr).cq = some cq →
      cq.cq_idx = (k_cq (create_cq_ex_cmd cq_attr)).resp.cq_idx % 2 ^ 16 ∧
      cq.cqn = (k_cq (create_cq_ex_cmd cq_attr)).resp.cq_idx % 2 ^ 16) ∧
    (∀ qp, ((cxi_create_qp calloc_ok k_qp qp_attr).qp = some qp ∨
        (cxi_create_qp_ex calloc_ok k_qp qp_attr).qp = some qp) →
      qp.qp_handle = (k_qp (create_qp_cmd qp_attr)).resp.qp_handle % 2 ^ 32 ∧
      qp.qp_num = (k_qp (create_qp_cmd qp_attr)).resp.qp_num % 2 ^ 32 ∧
      qp.sq_db_offset = (k_qp (create_qp_cmd qp_attr)).resp.sq_db_offset % 2 ^ 32 ∧
      qp.rq_db_offset = (k_qp (create_qp_cmd qp_attr)).resp.rq_db_offset % 2 ^ 32) ∧
    (∀ ah, (cxi_create_ah calloc_ok k_ah pd0 ah_attr).ah = some ah →
      ah.ibvah = (k_ah ah_attr).ibv) := by
  refine ⟨?_, ?_, ?_, ?_, ?_, ?_, ?_⟩
  · intro ctx h
    rw [alloc_context_some calloc_ok k_ctx vdev cmd_fd ctx h]
  · intro pd h
    unfold cxi_alloc_pd at h
    cases calloc_ok with
    | false => simp at h
    | true =>
      by_cases hr : (k_pd context).ret = 0
      · simp [hr] at h
        rw [← h]
        norm_num
      · simp [hr] at h
  · intro mr h
    unfold cxi_reg_mr at h
    cases calloc_ok with
    | false => simp at h
    | true =>
      by_cases hr : (k_mr (reg_mr_cmd addr length access)).ret = 0
      · simp [hr] at h
        rw [← h]
        norm_num
      · simp [hr] at h
  · intro cq h
    unfold cxi_create_cq at h
    cases calloc_ok with
    | false => simp at h
    | true =>
      by_cases hr : (k_cq (create_cq_cmd cqe comp_vector)).ret = 0
      · simp [hr] at h
        rw [← h]
        norm_num
      · simp [hr] at h
  · intro cq h
    unfold cxi_create_cq_ex at h
    cases calloc_ok with
    | false => simp at h
    | true =>
      by_cases hr : (k_cq (create_cq_ex_cmd cq_attr)).ret = 0
      · simp [hr] at h
        rw [← h]
        norm_num
      · simp [hr] at h
  · intro qp h
    rw [create_qp_some calloc_ok k_qp qp_attr qp h]
    exact ⟨rfl, rfl, rfl, rfl⟩
  · intro ah h
    unfold cxi_create_ah at h
    cases calloc_ok with
    | false => simp at h
    | true =>
      by_cases hr : (k_ah ah_attr).ret = 0
      · simp [hr] at h
        rw [← h]
      · simp [hr] at h

/-- C13 as amended, at the sample queue pair and the sample completion queue. -/
theorem create_stores_fields_witness :
    (sample_qp.qp_handle = 3 ∧ sample_qp.qp_num = 17 ∧ sample_qp.sq_db_offset = 4096 ∧
      sample_qp.rq_db_offset = 8192) ∧
    (sample_cq.cq_idx = 2 ∧ sample_cq.cqn = 2) :=
  ⟨(create_stores_fields sample_get_context {} 0 sample_env.alloc_pd {} sample_env.reg_mr
      sample_pd 0 0 0 sample_create_cq 16 0 {} sample_create {} sample_env.create_ah {}
      true).2.2.2.2.2.1 sample_qp (Or.inl rfl),
   (create_stores_fields sample_get_context {} 0 sample_env.alloc_pd {} sample_env.reg_mr
      sample_pd 0 0 0 sample_create_cq 16 0 {} sample_create {} sample_env.create_ah {}
      true).2.2.2.1 sample_cq rfl⟩

/-! ## Device-name check -/

theorem char_toNat_inj (a b : Char) (h : a.toNat = b.toNat) : a = b := by
  rw [← Char.ofNat_toNat a, ← Char.ofNat_toNat b, h]

theorem cxi_literal : "cxi_".toList = ['c', 'x', 'i', '_'] := by decide

theorem strncmp_step (a b : Char) (s1 s2 : List Char) (n : Nat) (hb : b.toNat ≠ 0) :
    strncmp (a :: s1) (b :: s2) (n + 1) = 0 ↔ a = b ∧ strncmp s1 s2 n = 0 := by
  simp only [strncmp, List.headD_cons, List.tail_cons]
  by_cases h : a = b
  · subst h
    simp [hb]
  · have h2 : a.toNat ≠ b.toNat := fun e => h (char_toNat_inj a b e)
    simp only [ne_eq, h2, not_false_eq_true, if_true, h, false_and, iff_false]
    omega

theorem strncmp_nil (b : Char) (s2 : List Char) (n : Nat) (hb : b.toNat ≠ 0) :
    strncmp [] (b :: s2) (n + 1) ≠ 0 := by
  simp only [strncmp, List.headD_nil, List.headD_cons]
  have h0 : (Char.ofNat 0).toNat = 0 := by decide
  have h2 : (Char.ofNat 0).toNat ≠ b.toNat := fun e => hb (by rw [← e, h0])
  rw [if_pos h2, h0]
  omega

theorem strncmp_cxi (l : List Char) :
    strncmp l "cxi_".toList 4 = 0 ↔ l.take 4 = ['c', 'x', 'i', '_'] := by
  rw [cxi_literal]
  rcases l with _ | ⟨a, _ | ⟨b, _ | ⟨c, _ | ⟨d, rest⟩⟩⟩⟩
  · simpa using strncmp_nil 'c' _ 3 (by decide)
  · rw [strncmp_step _ _ _ _ _ (by decide)]
    simpa using fun _ => strncmp_nil 'x' _ 2 (by decide)
  · rw [strncmp_step _ _ _ _ _ (by decide), strncmp_step _ _ _ _ _ (by decide)]
    simpa using fun _ _ => strncmp_nil 'i' _ 1 (by decide)
  · rw [strncmp_step _ _ _ _ _ (by decide), strncmp_step _ _ _ _ _ (by decide),
      strncmp_step _ _ _ _ _ (by decide)]
    simpa using fun _ _ _ => strncmp_nil '_' _ 0 (by decide)
  · rw [strncmp_step _ _ _ _ _ (by decide), strncmp_step _ _ _ _ _ (by decide),
      strncmp_step _ _ _ _ _ (by decide), strncmp_step _ _ _ _ _ (by decide)]
    simp [strncmp]

/-- C14: `cxidv_is_supported` returns 1 when the device name begins with the
four characters "cxi_" and 0 otherwise, in particular for every name shorter
than four characters; two contexts with the same device name get the same
answer. -/
theorem is_supported_iff_cxi_name (context other : ibv_context) :
    (context.device.name.toList.take 4 = ['c', 'x', 'i', '_'] →
      cxidv_is_supported context = 1) ∧
    (context.device.name.toList.take 4 ≠ ['c', 'x', 'i', '_'] →
      cxidv_is_supported context = 0) ∧
    (context.device.name.toList.length < 4 → cxidv_is_supported context = 0) ∧
    (other.device.name = context.device.name →
      cxidv_is_supported other = cxidv_is_supported context) := by
  have key := strncmp_cxi context.device.name.toList
  have hno : context.device.name.toList.take 4 ≠ ['c', 'x', 'i', '_'] →
      cxidv_is_supported context = 0 := by
    intro h
    have h2 : ¬ strncmp context.device.name.toList "cxi_".toList 4 = 0 := fun e => h (key.mp e)
    simp only [cxidv_is_supported, if_neg h2]
  refine ⟨?_, hno, ?_, ?_⟩
  · intro h
    simp only [cxidv_is_supported, if_pos (key.mpr h)]
  · intro hlen
    apply hno
    intro h
    have h3 := congrArg List.length h
    simp only [List.length_take, List.length_cons, List.length_nil] at h3
    omega
  · intro h
    simp only [cxidv_is_supported, h]

/-- C14 at the device names "cxi_0", "cxi" and "mlx5_0". -/
theorem is_supported_iff_cxi_name_witness :
    cxidv_is_supported { device := { name := "cxi_0" } } = 1 ∧
    cxidv_is_supported { device := { name := "cxi" } } = 0 ∧
    cxidv_is_supported { device := { name := "mlx5_0" } } = 0 ∧
    cxidv_is_supported { device := { name := "cxi_0" }, cmd_fd := 9 } =
      cxidv_is_supported { device := { name := "cxi_0" } } :=
  ⟨(is_supported_iff_cxi_name { device := { name := "cxi_0" } } {}).1 (by decide),
   (is_supported_iff_cxi_name { device := { name := "cxi" } } {}).2.2.1 (by decide),
   (is_supported_iff_cxi_name { device := { name := "mlx5_0" } } {}).2.1 (by decide),
   (is_supported_iff_cxi_name { device := { name := "cxi_0" } }
      { device := { name := "cxi_0" }, cmd_fd := 9 }).2.2.2 rfl⟩

/-! ## Polling -/

/-- C15: for every completion queue, every requested count `ne ≥ 0` and every
caller array, `cxi_poll_cq` returns a count `n` with `0 ≤ n ≤ ne` (it is always
0, which is not an error), the number of completion records it wrote to the
array is `n`, and the consumer counter has advanced by `n`. -/
theorem poll_cq_count {WC : Type} [DecidableEq WC] (cq : cxi_cq) (ne : Int) (wc : List WC)
    (hne : 0 ≤ ne) :
    0 ≤ (cxi_poll_cq cq ne wc).ret ∧ (cxi_poll_cq cq ne wc).ret ≤ ne ∧
    (records_written wc (cxi_poll_cq cq ne wc).wc : Int) = (cxi_poll_cq cq ne wc).ret ∧
    ((cxi_poll_cq cq ne wc).cq.cc : Int) = cq.cc + (cxi_poll_cq cq ne wc).ret ∧
    (cxi_poll_cq cq ne wc).ret = 0 ∧ (cxi_poll_cq cq ne wc).wc = wc ∧
    (cxi_poll_cq cq ne wc).cq = cq := by
  have hw : records_written wc wc = 0 := by
    unfold records_written
    rw [List.countP_eq_zero]
    intro p hp
    have h := List.of_mem_zip hp
    induction wc with
    | nil => simp at hp
    | cons x xs ih =>
      simp only [List.zip_cons_cons, List.mem_cons] at hp
      rcases hp with hp | hp
      · subst hp; simp
      · exact ih hp (List.of_mem_zip hp)
  refine ⟨le_refl 0, hne, ?_, ?_, rfl, rfl, rfl⟩
  · show (records_written wc wc : Int) = 0
    rw [hw]
    rfl
  · show (cq.cc : Int) = cq.cc + 0
    simp

/-- C15 at the sample completion queue, a request for 4 completions and an
array of four records. -/
theorem poll_cq_count_witness :
    (cxi_poll_cq sample_cq 4 [10, 20, 30, 40]).ret = 0 ∧
    (cxi_poll_cq sample_cq 4 [10, 20, 30, 40]).wc = [10, 20, 30, 40] ∧
    (cxi_poll_cq sample_cq 4 [10, 20, 30, 40]).cq = sample_cq :=
  (poll_cq_count sample_cq 4 [10, 20, 30, 40] (by decide)).2.2.2.2

/-! ## Create-then-destroy cycles -/

theorem transport_cmds_append (a b : List event) :
    transport_cmds (a ++ b) = transport_cmds a ++ transport_cmds b := by
  induction a with
  | nil => rfl
  | cons x xs ih => cases x <;> simp [transport_cmds, ih]

theorem live_records_append (a b : List event) : ∀ live : List resource,
    live_records live (a ++ b) = live_records (live_records live a) b := by
  induction a with
  | nil => intro live; rfl
  | cons x xs ih => intro live; cases x <;> simp [live_records, ih]

theorem cycle_spec (e : cycle_env) (ex : Bool) (kind : resource) (h : e.ok) :
    transport_cmds (cycle e ex kind) = cycle_cmds e ex kind ∧
    ∀ live, live_records live (cycle e ex kind) = live := by
  obtain ⟨hc, h1, h2, h3, h4, h5, h6, h7, h8, h9, h10⟩ := h
  cases kind <;> cases ex <;>
    simp [cycle, cycle_cmds, cxi_alloc_pd, cxi_dealloc_pd, cxi_reg_mr, cxi_dereg_mr,
      cxi_create_cq, cxi_create_cq_ex, cxi_destroy_cq, cxi_create_qp, cxi_create_qp_ex,
      cxi_destroy_qp, cxi_create_ah, cxi_destroy_ah, transport_cmds, live_records, hc, h1, h2,
      h3, h4, h5, h6, h7, h8, h9, h10]

theorem cycle_cmds_count (e : cycle_env) (ex : Bool) (kind : resource)
    (hkind : kind ≠ .context) :
    (cycle_cmds e ex kind).countP uverbs_cmd.is_create = 1 ∧
    (cycle_cmds e ex kind).countP uverbs_cmd.is_destroy = 1 ∧
    (cycle_cmds e ex kind).length = 2 := by
  cases kind <;> cases ex <;>
    simp [cycle_cmds, uverbs_cmd.is_create, uverbs_cmd.is_destroy] at hkind ⊢

theorem sample_env_ok : sample_env.ok :=
  ⟨rfl, fun _ => rfl, fun _ => rfl, fun _ => rfl, fun _ => rfl, fun _ => rfl, fun _ => rfl,
    fun _ => rfl, fun _ => rfl, fun _ => rfl, fun _ => rfl⟩

/-- C16: for every number of cycles (the length of `es`) and every resource
kind other than the context, when the allocation and every transport call
succeed, the commands issued by the consecutive create-then-destroy cycles are
exactly, cycle after cycle, one create command followed by the destroy command
naming the handle returned for it: as many create as destroy commands as there
are cycles; no record stays allocated, and the context, hence its QP lookup
table (empty after `cxi_alloc_context`), is as before. -/
theorem cycles_symmetric (ctx : cxi_context) (ex : Bool) (kind : resource)
    (es : List cycle_env) (live : List resource) (hkind : kind ≠ .context)
    (hok : ∀ e ∈ es, e.ok) :
    transport_cmds (cycles ctx ex kind es).2 = cycles_cmds ex kind es ∧
    (transport_cmds (cycles ctx ex kind es).2).countP uverbs_cmd.is_create = es.length ∧
    (transport_cmds (cycles ctx ex kind es).2).countP uverbs_cmd.is_destroy = es.length ∧
    (transport_cmds (cycles ctx ex kind es).2).length = 2 * es.length ∧
    live_records live (cycles ctx ex kind es).2 = live ∧
    (cycles ctx ex kind es).1 = ctx ∧
    (ctx.qp_table = [] → (cycles ctx ex kind es).1.qp_table = []) ∧
    (∀ (alloc_ok : Bool) (k : cxi_ibv_alloc_ucontext_cmd → get_context_reply)
      (vdev : ibv_device) (cmd_fd : Int),
      (cxi_alloc_context alloc_ok k vdev cmd_fd).ctx = some ctx →
      (cycles ctx ex kind es).1.qp_table = []) := by
  have hctx : ∀ l : List cycle_env, (cycles ctx ex kind l).1 = ctx := by
    intro l
    induction l with
    | nil => rfl
    | cons e l ih => simpa [cycles] using ih
  have main : transport_cmds (cycles ctx ex kind es).2 = cycles_cmds ex kind es ∧
      (cycles_cmds ex kind es).countP uverbs_cmd.is_create = es.length ∧
      (cycles_cmds ex kind es).countP uverbs_cmd.is_destroy = es.length ∧
      (cycles_cmds ex kind es).length = 2 * es.length ∧
      live_records live (cycles ctx ex kind es).2 = live := by
    induction es with
    | nil => exact ⟨rfl, rfl, rfl, rfl, rfl⟩
    | cons e l ih =>
      have he := hok e (List.mem_cons_self e l)
      obtain ⟨i1, i2, i3, i4, i5⟩ := ih (fun x hx => hok x (List.mem_cons_of_mem e hx))
      obtain ⟨c1, c2⟩ := cycle_spec e ex kind he
      obtain ⟨n1, n2, n3⟩ := cycle_cmds_count e ex kind hkind
      refine ⟨?_, ?_, ?_, ?_, ?_⟩
      · simp only [cycles, cycles_cmds, transport_cmds_append, c1, i1]
      · simp only [cycles_cmds, List.countP_append, n1, i2, List.length_cons]
        omega
      · simp only [cycles_cmds, List.countP_append, n2, i3, List.length_cons]
        omega
      · simp only [cycles_cmds, List.length_append, n3, i4, List.length_cons]
        omega
      · simp only [cycles, live_records_append, c2, i5]
  obtain ⟨m1, m2, m3, m4, m5⟩ := main
  refine ⟨m1, by rw [m1]; exact m2, by rw [m1]; exact m3, by rw [m1]; exact m4, m5,
    hctx es, ?_, ?_⟩
  · intro h
    rw [hctx es]
    exact h
  · intro alloc_ok k vdev cmd_fd h
    rw [hctx es, alloc_context_some alloc_ok k vdev cmd_fd ctx h]

/-- C16 at two queue-pair cycles on the sample context with one completion
queue and one protection domain allocated beforehand. -/
theorem cycles_symmetric_witness :
    transport_cmds (cycles sample_ctx false .qp [sample_env, sample_env]).2 =
      [.create_qp (create_qp_cmd sample_env.qp_attr), .destroy_qp 9,
       .create_qp (create_qp_cmd sample_env.qp_attr), .destroy_qp 9] ∧
    (transport_cmds (cycles sample_ctx false .qp [sample_env, sample_env]).2).countP
      uverbs_cmd.is_create = 2 ∧
    (transport_cmds (cycles sample_ctx false .qp [sample_env, sample_env]).2).countP
      uverbs_cmd.is_destroy = 2 ∧
    live_records [.cq, .pd] (cycles sample_ctx false .qp [sample_env, sample_env]).2 =
      [.cq, .pd] ∧
    (cycles sample_ctx false .qp [sample_env, sample_env]).1.qp_table = [] := by
  have h := cycles_symmetric sample_ctx false .qp [sample_env, sample_env] [.cq, .pd]
    (by decide)
    (by
      intro e he
      simp only [List.mem_cons, List.mem_singleton, List.not_mem_nil, or_false, or_self] at he
      rw [he]
      exact sample_env_ok)
  exact ⟨h.1, h.2.1, h.2.2.1, h.2.2.2.2.1, h.2.2.2.2.2.2.1 rfl⟩

/-! ## ABI structure layout -/

/-- C17 on the code: every command and response structure of cxi-abi.h has
`comp_mask` at offset 0, but the sizes under natural layout are 8, 12, 12, 16,
16, 20, 24, 40, 16, 28, 32 and 28 bytes, so `cxi_alloc_ucontext_resp`,
`cxi_alloc_pd_resp`, `cxi_create_qp_cmd`, `cxi_method1_resp` and
`cxi_method3_resp` are not multiples of 8 and their reserved arrays do not stop
at the next 8-byte boundary; the other seven follow the rule. -/
theorem abi_layout_sizes :
    (cxi_abi_structs.map fun s => offsetof s "comp_mask") = List.replicate 12 0 ∧
    cxi_abi_structs.map sizeof = [8, 12, 12, 16, 16, 20, 24, 40, 16, 28, 32, 28] ∧
    cxi_abi_structs.map abi_aligned =
      [true, false, false, true, true, false, true, true, true, false, true, false] ∧
    sizeof cxi_alloc_ucontext_resp.layout % 8 = 4 ∧
    sizeof cxi_alloc_pd_resp.layout % 8 = 4 ∧
    sizeof cxi_create_qp_cmd.layout % 8 = 4 ∧
    sizeof cxi_method1_resp.layout % 8 = 4 ∧
    sizeof cxi_method3_resp.layout % 8 = 4 := by
  decide

/-! ## Work-queue invariant -/

theorem qp_world_step_wq {WR WC : Type} (w : qp_world) (c : qp_call WR WC) :
    (w.step c).qp.sq = w.qp.sq ∧ (w.step c).qp.rq = w.qp.rq := by
  cases c with
  | post_send wr => exact ⟨rfl, rfl⟩
  | post_recv wr => exact ⟨rfl, rfl⟩
  | modify_qp b k attr m =>
    simp only [qp_world.step, cxi_modify_qp]
    split
    · exact ⟨rfl, rfl⟩
    · split <;> exact ⟨rfl, rfl⟩
  | query_qp k m => exact ⟨rfl, rfl⟩
  | poll_send_cq ne wc => exact ⟨rfl, rfl⟩
  | poll_recv_cq ne wc => exact ⟨rfl, rfl⟩

theorem qp_world_run_wq {WR WC : Type} (cs : List (qp_call WR WC)) : ∀ w : qp_world,
    (w.run cs).qp.sq = w.qp.sq ∧ (w.run cs).qp.rq = w.qp.rq := by
  induction cs with
  | nil => intro w; exact ⟨rfl, rfl⟩
  | cons c cs ih =>
    intro w
    have h1 := ih (w.step c)
    have h2 := qp_world_step_wq w c
    simp only [qp_world.run]
    exact ⟨h1.1.trans h2.1, h1.2.trans h2.2⟩

/-- C18: in every state reached from a queue pair returned by `cxi_create_qp`
or `cxi_create_qp_ex` through any sequence of `cxi_post_send`,
`cxi_post_recv`, `cxi_modify_qp`, `cxi_query_qp` calls and `cxi_poll_cq`
calls on its completion queues, the send and the receive work queue satisfy
`wqe_posted − wqe_completed ≤ wqe_cnt` (both queues stay as created, all
three counters 0). -/
theorem wq_capacity_invariant {WR WC : Type} (calloc_ok : Bool)
    (create : cxi_create_qp_cmd → create_qp_reply) (attr : ibv_qp_init_attr) (qp : cxi_qp)
    (send_cq recv_cq : cxi_cq) (calls : List (qp_call WR WC))
    (h : (cxi_create_qp calloc_ok create attr).qp = some qp ∨
      (cxi_create_qp_ex calloc_ok create attr).qp = some qp) :
    ((qp_world.mk qp send_cq recv_cq).run calls).qp.sq.outstanding ≤
      ((qp_world.mk qp send_cq recv_cq).run calls).qp.sq.wqe_cnt ∧
    ((qp_world.mk qp send_cq recv_cq).run calls).qp.rq.outstanding ≤
      ((qp_world.mk qp send_cq recv_cq).run calls).qp.rq.wqe_cnt ∧
    ((qp_world.mk qp send_cq recv_cq).run calls).qp.sq = {} ∧
    ((qp_world.mk qp send_cq recv_cq).run calls).qp.rq = {} := by
  obtain ⟨h1, h2⟩ := qp_world_run_wq calls (qp_world.mk qp send_cq recv_cq)
  have hq := create_qp_some calloc_ok create attr qp h
  have hs : qp.sq = {} := by rw [hq]
  have hr : qp.rq = {} := by rw [hq]
  rw [h1, h2]
  simp only [hs, hr]
  simp [cxi_wq.outstanding]

/-- C18 at the sample queue pair after a post, a modify to INIT, a poll, a
receive post and a query. -/
theorem wq_capacity_invariant_witness :
    ((qp_world.mk sample_qp sample_cq sample_cq).run
      [qp_call.post_send [101], .modify_qp 1 sample_modify_ok ⟨.IBV_QPS_INIT⟩ 1,
       .poll_send_cq 4 [0, 0, 0, 0], .post_recv [102],
       .query_qp sample_query 1]).qp.sq.outstanding ≤
    ((qp_world.mk sample_qp sample_cq sample_cq).run
      [qp_call.post_send [101], .modify_qp 1 sample_modify_ok ⟨.IBV_QPS_INIT⟩ 1,
       .poll_send_cq 4 [0, 0, 0, 0], .post_recv [102],
       .query_qp sample_query 1]).qp.sq.wqe_cnt :=
  (wq_capacity_invariant true sample_create {} sample_qp sample_cq sample_cq
    [qp_call.post_send [101], .modify_qp 1 sample_modify_ok ⟨.IBV_QPS_INIT⟩ 1,
     .poll_send_cq 4 [0, 0, 0, 0], .post_recv [102], .query_qp sample_query 1]
    (Or.inl rfl)).1

/-! ## Leaving the error state -/

/-- C19 fails on the code: on a queue pair whose cached state is Error, a
successful `cxi_modify_qp` call that carries the state bit and requests INIT
leaves the cached state INIT. -/
theorem error_state_counterexample :
    (cxi_modify_qp 1 sample_modify_ok { sample_qp with state := .IBV_QPS_ERR }
      ⟨.IBV_QPS_INIT⟩ 1).qp.state = .IBV_QPS_INIT ∧
    ibv_qp_state.IBV_QPS_INIT ≠ ibv_qp_state.IBV_QPS_ERR :=
  ⟨rfl, by decide⟩

/-- C19 as amended: on a queue pair whose cached state is Error,
`cxi_modify_qp` leaves the cached state Error when the transport fails or the
attribute mask lacks the state bit, and sets it to the requested state,
whichever it is, when the transport succeeds and the mask carries the state
bit. -/
theorem error_state_left_only_on_success (IBV_QP_STATE : Nat)
    (ibv_cmd_modify_qp : ibv_qp → ibv_qp_attr → Nat → Int) (qp : cxi_qp) (attr : ibv_qp_attr)
    (attr_mask : Nat) (herr : qp.state = .IBV_QPS_ERR) :
    (ibv_cmd_modify_qp qp.verbs_qp attr attr_mask ≠ 0 →
      (cxi_modify_qp IBV_QP_STATE ibv_cmd_modify_qp qp attr attr_mask).qp.state =
        .IBV_QPS_ERR) ∧
    (attr_mask &&& IBV_QP_STATE = 0 →
      (cxi_modify_qp IBV_QP_STATE ibv_cmd_modify_qp qp attr attr_mask).qp.state =
        .IBV_QPS_ERR) ∧
    (ibv_cmd_modify_qp qp.verbs_qp attr attr_mask = 0 → attr_mask &&& IBV_QP_STATE ≠ 0 →
      (cxi_modify_qp IBV_QP_STATE ibv_cmd_modify_qp qp attr attr_mask).qp.state =
        attr.qp_state) := by
  refine ⟨?_, ?_, ?_⟩
  · intro h
    simp only [cxi_modify_qp, if_pos h, herr]
  · intro h
    by_cases hk : ibv_cmd_modify_qp qp.verbs_qp attr attr_mask = 0
    · simp [cxi_modify_qp, hk, h, herr]
    · simp only [cxi_modify_qp, ne_eq, hk, not_false_eq_true, if_true, herr]
  · intro hk h
    simp [cxi_modify_qp, hk, h]

/-- C19 as amended, at a queue pair in state Error: a failing modify towards
RTS and a successful modify without the state bit keep Error, a successful
modify towards RESET with the state bit gives RESET. -/
theorem error_state_left_only_on_success_witness :
    (cxi_modify_qp 1 sample_modify_fail { sample_qp with state := .IBV_QPS_ERR }
      ⟨.IBV_QPS_RTS⟩ 1).qp.state = .IBV_QPS_ERR ∧
    (cxi_modify_qp 1 sample_modify_ok { sample_qp with state := .IBV_QPS_ERR }
      ⟨.IBV_QPS_RTS⟩ 2).qp.state = .IBV_QPS_ERR ∧
    (cxi_modify_qp 1 sample_modify_ok { sample_qp with state := .IBV_QPS_ERR }
      ⟨.IBV_QPS_RESET⟩ 1).qp.state = .IBV_QPS_RESET :=
  ⟨(error_state_left_only_on_success 1 sample_modify_fail
      { sample_qp with state := .IBV_QPS_ERR } ⟨.IBV_QPS_RTS⟩ 1 rfl).1 (by decide),
   (error_state_left_only_on_success 1 sample_modify_ok
      { sample_qp with state := .IBV_QPS_ERR } ⟨.IBV_QPS_RTS⟩ 2 rfl).2.1 (by decide),
   (error_state_left_only_on_success 1 sample_modify_ok
      { sample_qp with state := .IBV_QPS_ERR } ⟨.IBV_QPS_RESET⟩ 1 rfl).2.2 (by decide)
      (by decide)⟩

/-! ## Generic device query -/

theorem min_t_int_eq (a : Int) (b : Nat) : min_t_int a b = min a (to_int b) := by
  unfold min_t_int
  simp only
  by_cases h : a < to_int b
  · rw [if_pos h, min_eq_left (le_of_lt h)]
  · rw [if_neg h, min_eq_right (not_lt.mp h)]

theorem to_int_u16 (v : Nat) (h : v < 2 ^ 16) : to_int v = (v : Int) := by
  unfold to_int
  have h1 : v % 2 ^ 32 = v := Nat.mod_eq_of_lt (by omega)
  rw [h1, if_pos (by omega)]

/-- C21: for every context whose members hold values of their C types, when
the generic device query succeeds `cxi_query_device_ex` returns 0 and reports
max_qp_wr as the minimum of the kernel-reported value and the cached max_sq_wr
converted to `int` (its value modulo 2^32 read in two's complement), and
max_sge as the minimum of the kernel-reported value and the cached max_sq_sge;
neither exceeds the kernel-reported value and the other members are the
kernel's; when the generic query fails, its code is returned unchanged and the
structure is as the generic layer left it. -/
theorem query_device_ex_min (k : ibv_device_attr → query_device_reply) (ctx : cxi_context)
    (attr : ibv_device_attr) (hwf : ctx.wf) :
    ((k attr).ret = 0 →
      (cxi_query_device_ex k ctx attr).ret = 0 ∧
      (cxi_query_device_ex k ctx attr).attr.max_qp_wr =
        min (k attr).attr.max_qp_wr (to_int ctx.max_sq_wr) ∧
      (cxi_query_device_ex k ctx attr).attr.max_sge =
        min (k attr).attr.max_sge (ctx.max_sq_sge : Int) ∧
      (cxi_query_device_ex k ctx attr).attr.max_qp_wr ≤ (k attr).attr.max_qp_wr ∧
      (cxi_query_device_ex k ctx attr).attr.max_sge ≤ (k attr).attr.max_sge ∧
      (cxi_query_device_ex k ctx attr).attr.max_qp = (k attr).attr.max_qp ∧
      (cxi_query_device_ex k ctx attr).attr.max_cqe = (k attr).attr.max_cqe ∧
      (cxi_query_device_ex k ctx attr).events = [.cmd .query_device]) ∧
    ((k attr).ret ≠ 0 →
      cxi_query_device_ex k ctx attr = ⟨(k attr).ret, (k attr).attr, [.cmd .query_device]⟩) ∧
    to_int ctx.max_sq_wr =
      (if ctx.max_sq_wr < 2 ^ 31 then (ctx.max_sq_wr : Int)
       else (ctx.max_sq_wr : Int) - 2 ^ 32) := by
  obtain ⟨_, h2, _, h4, _, _⟩ := hwf
  have m32 : ctx.max_sq_wr % 2 ^ 32 = ctx.max_sq_wr := Nat.mod_eq_of_lt h2
  have m16 : ctx.max_sq_sge % 2 ^ 16 = ctx.max_sq_sge := Nat.mod_eq_of_lt h4
  refine ⟨?_, ?_, ?_⟩
  · intro hok
    have e1 : (cxi_query_device_ex k ctx attr).attr.max_qp_wr =
        min (k attr).attr.max_qp_wr (to_int ctx.max_sq_wr) := by
      simp only [cxi_query_device_ex, hok, ne_eq, not_true_eq_false, if_false, m32,
        min_t_int_eq]
    have e2 : (cxi_query_device_ex k ctx attr).attr.max_sge =
        min (k attr).attr.max_sge (ctx.max_sq_sge : Int) := by
      simp only [cxi_query_device_ex, hok, ne_eq, not_true_eq_false, if_false, m16,
        min_t_int_eq, to_int_u16 ctx.max_sq_sge h4]
    refine ⟨?_, e1, e2, ?_, ?_, ?_, ?_, ?_⟩
    · simp only [cxi_query_device_ex, hok, ne_eq, not_true_eq_false, if_false]
    · rw [e1]; exact min_le_left _ _
    · rw [e2]; exact min_le_left _ _
    · simp only [cxi_query_device_ex, hok, ne_eq, not_true_eq_false, if_false]
    · simp only [cxi_query_device_ex, hok, ne_eq, not_true_eq_false, if_false]
    · simp only [cxi_query_device_ex, hok, ne_eq, not_true_eq_false, if_false]
  · intro hfail
    simp only [cxi_query_device_ex, if_pos hfail]
  · unfold to_int
    rw [m32]

/-- C21 at the sample context (limits 1024 and 4 against 16384 and 32 from
the kernel), at a context whose cached send depth 4294967295 converts to −1,
and at a failing generic query. -/
theorem query_device_ex_min_witness :
    ((cxi_query_device_ex sample_query_device sample_ctx {}).attr.max_qp_wr = 1024 ∧
      (cxi_query_device_ex sample_query_device sample_ctx {}).attr.max_sge = 4) ∧
    ((cxi_query_device_ex sample_query_device sample_ctx_wide {}).attr.max_qp_wr = -1 ∧
      (cxi_query_device_ex sample_query_device sample_ctx_wide {}).attr.max_sge = 32) ∧
    cxi_query_device_ex sample_query_device_fail sample_ctx { max_qp_wr := 7 } =
      ⟨5, { max_qp_wr := 7 }, [.cmd .query_device]⟩ := by
  have h1 := (query_device_ex_min sample_query_device sample_ctx {} (by decide)).1 rfl
  have h2 := (query_device_ex_min sample_query_device sample_ctx_wide {} (by decide)).1 rfl
  have h3 := (query_device_ex_min sample_query_device_fail sample_ctx { max_qp_wr := 7 }
    (by decide)).2.1 (by decide)
  exact ⟨⟨h1.2.1.trans (by decide), h1.2.2.1.trans (by decide)⟩,
    ⟨h2.2.1.trans (by decide), h2.2.2.1.trans (by decide)⟩, h3⟩

end Cxi
